import Mathlib

/-!
Verification development for the AWACS controller (`awacs.py`).

The Python source is shallowly embedded:
* float-valued state (positions, altitudes, times) is carried in `ℚ`
  (Python floats are dyadic rationals; none of the claims hinge on rounding
  of the binary representation),
* transcendental geometry (`math.atan2`, `math.hypot`, `math.sin`, `math.cos`)
  is idealised over `ℝ`,
* dictionaries are association lists preserving insertion order (as Python
  `dict` does),
* fallible lookups return `Option`.
-/

namespace Awacs

/-! ## Constants (`awacs.py` top of file) -/

def EARTH_M_PER_NM : ℚ := 1852
def M_TO_FT : ℚ := 3.280839895

def BLUE_HINTS : List String :=
  ["Allies", "Blue", "NATO", "USA", "USAF", "USN", "USMC", "U.S.", "United States",
   "ROK", "Training", "Allied", "Player", "Friendly"]
def RED_HINTS : List String :=
  ["Enemies", "Red", "OPFOR", "Aggressor", "DPRK", "Russia", "China", "Serbia",
   "Hostile", "Adversary"]
def TANKER_HINTS : List String :=
  ["KC-135", "KC135", "KC-10", "KC10", "KC-46", "KC46", "Tanker", "Texaco", "Shell", "Arco"]
def MISSILE_HINTS : List String :=
  ["AIM-", "R-", "AA-", "AMRAAM", "Sparrow", "Sidewinder", "Adder", "Alamo", "Archer",
   "Vympel", "PL-", "SD-", "Meteor", "Fox"]

def HOT_MAX : ℚ := 45
def BEAM_MIN : ℚ := 70
def BEAM_MAX : ℚ := 110
def COLD_MIN : ℚ := 135

def MERGED_NM : ℚ := 3
def MISSILE_ALERT_MAX_RANGE_NM : ℚ := 30

/-! ## String helpers -/

/-- Python `str.lower()` (ASCII), kernel-reducible. -/
def lowerStr (s : String) : String := String.mk (s.toList.map Char.toLower)

/-- Python `str.strip()`, kernel-reducible. -/
def trimStr (s : String) : String :=
  String.mk (((s.toList.dropWhile Char.isWhitespace).reverse.dropWhile Char.isWhitespace).reverse)

/-- Python `str.startswith`, kernel-reducible. -/
def startsWithStr (s p : String) : Bool := p.toList.isPrefixOf s.toList

/-- Python `s[n:]` (ASCII), kernel-reducible. -/
def dropStr (s : String) (n : Nat) : String := String.mk (s.toList.drop n)

/-- Python `s.replace(" ", "")`, kernel-reducible. -/
def stripSpaces (s : String) : String := String.mk (s.toList.filter (fun c => ¬(c = ' ')))

/-- Python `sub in s` substring test. -/
def strContains (s sub : String) : Bool :=
  (List.range (s.toList.length + 1)).any (fun i => sub.toList.isPrefixOf (s.toList.drop i))

/-- `_norm`: lowercase and strip every character outside `[a-z0-9]`. -/
def normStr (s : String) : String :=
  String.mk ((s.toList.map Char.toLower).filter (fun c => ('a' ≤ c ∧ c ≤ 'z') ∨ c.isDigit))

/-- Zero-pad a decimal string on the left to width `w` (for Python `{:0wd}`). -/
def pad0 (w : Nat) (s : String) : String :=
  if s.length ≥ w then s else String.mk (List.replicate (w - s.length) '0') ++ s

/-- Python `f"{n:03d}"`. -/
def fmt3 (n : ℤ) : String :=
  if n ≥ 0 then pad0 3 (toString n) else "-" ++ pad0 2 (toString (-n))

/-- Digit grouping of a natural number for Python `f"{n:,}"`. -/
def commaGroups (n : ℕ) : String :=
  if h : n < 1000 then toString n
  else commaGroups (n / 1000) ++ "," ++ pad0 3 (toString (n % 1000))
termination_by n
decreasing_by exact Nat.div_lt_self (by omega) (by omega)

/-- Python `f"{n:,}"` on an integer. -/
def commaFmt (n : ℤ) : String :=
  if n < 0 then "-" ++ commaGroups n.natAbs else commaGroups n.natAbs

/-! ## Exact-rational helpers shared with the float model.

Python `%` on floats is `a - b*floor(a/b)` (for our positive divisors), and
`round` is round-half-to-even.  These are used both on the `ℚ`-carried state
and (separately, over `ℝ`) in the geometry below. -/

def fmodQ (a b : ℚ) : ℚ := a - b * ⌊a / b⌋

/-- Python `round` (banker's rounding) on a rational. -/
def pyroundQ (x : ℚ) : ℤ :=
  let n : ℤ := ⌊x⌋
  let f : ℚ := x - n
  if f < 1/2 then n else if 1/2 < f then n + 1 else if 2 ∣ n then n else n + 1

/-- Python `int()` truncation toward zero on a rational. -/
def truncQ (q : ℚ) : ℤ := if 0 ≤ q then ⌊q⌋ else ⌈q⌉

/-- `norm_head` on the rational carrier: `(h % 360 + 360) % 360`. -/
def normHeadQ (h : ℚ) : ℚ := fmodQ (fmodQ h 360 + 360) 360

/-! ## Data model: transforms and objects

`ACMIObject` property bags are embedded with the attributes the controller
reads; a Python attribute that is absent or `None` is `none` / `""`. -/

structure Transform where
  U : Option ℚ := none
  V : Option ℚ := none
  Longitude : Option ℚ := none
  Latitude : Option ℚ := none
  Altitude : Option ℚ := none
  Heading : Option ℚ := none
deriving DecidableEq, Repr

/-- A tracked object (`ACMIObject`).  Field `otype` is the source's `Type`
attribute, `name` is `Name`, etc. -/
structure Obj where
  object_id : String := ""
  otype : String := ""
  name : String := ""
  coalition : String := ""
  color : String := ""
  callsign : String := ""
  pilot : String := ""
  group : String := ""
  unit : String := ""
  T : Option Transform := none
deriving DecidableEq, Repr, Inhabited

/-- Coordinate mode returned by `get_xy_mode`. -/
inductive XYMode
  | uv (u v : ℚ)
  | ll (lon lat : ℚ)
deriving DecidableEq, Repr

/-- `get_xy_mode(obj)`: planar `U/V` unless both are `None`/`0.0`, else
longitude/latitude, else nothing. -/
def get_xy_mode (o : Obj) : Option XYMode :=
  match o.T with
  | none => none
  | some t =>
    if ¬(t.U = none ∨ t.U = some 0) ∨ ¬(t.V = none ∨ t.V = some 0) then
      some (.uv (t.U.getD 0) (t.V.getD 0))
    else
      match t.Longitude, t.Latitude with
      | some lon, some lat => some (.ll lon lat)
      | _, _ => none

/-- `uv_of(obj)`: the planar position, or `None` when the mode is not planar. -/
def uv_of (o : Obj) : Option (ℚ × ℚ) :=
  match get_xy_mode o with
  | some (.uv u v) => some (u, v)
  | _ => none

/-- `WorldState.coalition_of` (reads only the object, no registry state). -/
def coalition_of (o : Obj) : String :=
  if BLUE_HINTS.any (fun tag => strContains o.coalition tag) then "Blue"
  else if RED_HINTS.any (fun tag => strContains o.coalition tag) then "Red"
  else
    let color := lowerStr o.color
    if color = "blue" ∨ color = "lightblue" ∨ color = "cyan" ∨ color = "turquoise" then "Blue"
    else if color = "red" ∨ color = "orange" ∨ color = "maroon" then "Red"
    else if TANKER_HINTS.any (fun h => strContains o.name h) then "Blue"
    else "Unknown"

/-! ## Geometry (`math helpers` section), idealised over `ℝ`. -/

open Real in
/-- Python `math.atan2 y x` (range `(-π, π]`), via the complex argument of
`x + y·i`. -/
noncomputable def atan2 (y x : ℝ) : ℝ := Complex.arg ⟨x, y⟩

/-- Python `math.degrees`. -/
noncomputable def degreesR (r : ℝ) : ℝ := r * 180 / Real.pi

/-- Python `math.radians`. -/
noncomputable def radiansR (d : ℝ) : ℝ := d * Real.pi / 180

/-- Python float `a % b` (`a - b*floor(a/b)`, the sign following `b`). -/
noncomputable def fmodR (a b : ℝ) : ℝ := a - b * ⌊a / b⌋

open Classical in
/-- Python `round` (banker's rounding) on a real. -/
noncomputable def pyround (x : ℝ) : ℤ :=
  let n : ℤ := ⌊x⌋
  let f : ℝ := x - n
  if f < 1/2 then n else if 1/2 < f then n + 1 else if 2 ∣ n then n else n + 1

/-- Python `math.hypot`. -/
noncomputable def hypotR (x y : ℝ) : ℝ := Real.sqrt (x ^ 2 + y ^ 2)

/-- `bearing_deg(dx, dy)`: compass bearing of the planar offset, degrees in
`[0, 360)`. -/
noncomputable def bearing_deg (dx dy : ℝ) : ℝ :=
  fmodR (degreesR (atan2 dx dy) + 360) 360

/-- `brg_rng_from_xy`: integer bearing (rounded, mod 360) and range in NM. -/
noncomputable def brg_rng_from_xy (ou ov tu tv : ℝ) : ℤ × ℝ :=
  let dx := tu - ou
  let dy := tv - ov
  (pyround (bearing_deg dx dy) % 360, hypotR dx dy / (EARTH_M_PER_NM : ℝ))

/-- `bulls_to_uv`: the point at `brg_deg`/`rng_nm` from `(bu, bv)`. -/
noncomputable def bulls_to_uv (bu bv brg_deg rng_nm : ℝ) : ℝ × ℝ :=
  let r := radiansR brg_deg
  (bu + Real.sin r * (rng_nm * (EARTH_M_PER_NM : ℝ)),
   bv + Real.cos r * (rng_nm * (EARTH_M_PER_NM : ℝ)))

/-- `angels_from_meters` (on the rational altitude carrier). -/
def angels_from_meters (m : Option ℚ) : Option ℤ :=
  m.map (fun x => pyroundQ ((x * M_TO_FT) / 1000))

/-- `threat_alt_phrase`: FL form at or above 18,000 ft, else rounded feet. -/
def threat_alt_phrase (alt_m : Option ℚ) : String :=
  match alt_m with
  | none => "ALT UNKNOWN"
  | some m =>
    let ft := m * M_TO_FT
    if ft ≥ 18000 then "FL" ++ toString (pyroundQ (ft / 100))
    else commaFmt (pyroundQ (ft / 100) * 100) ++ " FT"

open Classical in
/-- `dir_word_from_heading` on a known heading (the call sites below only
reach it with a non-`None` heading). -/
noncomputable def dir_word_from_heading (hdg : ℝ) : String :=
  let dirs := ["north", "northeast", "east", "southeast", "south", "southwest",
               "west", "northwest"]
  let idx := (⌊(fmodR hdg 360 + 22.5) / 45⌋ % 8).toNat
  dirs.getD idx "north"

open Classical in
/-- `aspect_word(hdg, brg_from_fighter)`. -/
noncomputable def aspect_word (hdg brg : Option ℝ) : String :=
  match hdg, brg with
  | some h, some b =>
    let diff := |fmodR (h - b + 540) 360 - 180|
    if (BEAM_MIN : ℝ) ≤ diff ∧ diff ≤ (BEAM_MAX : ℝ) then "beam " ++ dir_word_from_heading h
    else if diff < (HOT_MAX : ℝ) then "HOT"
    else if (COLD_MIN : ℝ) < diff then "COLD"
    else "flank " ++ dir_word_from_heading h
  | _, _ => "UNK"

/-! ## Association-list maps (Python `dict`, insertion-ordered) -/

/-- `m[k] = v`: replace in place if the key exists, else append. -/
def setA {α : Type} (m : List (String × α)) (k : String) (v : α) : List (String × α) :=
  if m.any (fun p => p.1 = k) then m.map (fun p => if p.1 = k then (k, v) else p)
  else m ++ [(k, v)]

/-- `m.get(k)`. -/
def getA {α : Type} (m : List (String × α)) (k : String) : Option α :=
  (m.find? (fun p => p.1 = k)).map (fun p => p.2)

/-- `m.pop(k, None)` (the remaining map). -/
def delA {α : Type} (m : List (String × α)) (k : String) : List (String × α) :=
  m.filter (fun p => ¬(p.1 = k))

/-- Update the value at `k` (no-op when absent). -/
def mapA {α : Type} (m : List (String × α)) (k : String) (f : α → α) : List (String × α) :=
  m.map (fun p => if p.1 = k then (k, f p.2) else p)

/-! ## World state (`TrackWrap`, `CAPSite`, `PushPlan`, `WorldState`) -/

/-- `TrackWrap`: an object plus velocity/home-plate bookkeeping.  The smoothed
speed is real-valued (it comes out of `math.hypot`). -/
structure Track where
  obj : Obj
  home_uv : Option (ℚ × ℚ) := none
  last_u : Option ℚ := none
  last_v : Option ℚ := none
  last_t : Option ℚ := none
  spd_mps : ℝ := 0

/-- `TrackWrap.__init__`. -/
def mkTrack (o : Obj) : Track :=
  { obj := o, home_uv := none, last_u := o.T.bind (fun t => t.U),
    last_v := o.T.bind (fun t => t.V), last_t := none, spd_mps := 0 }

/-- `TrackWrap.update_speed`.  Python's set iteration order for
`assigned_ids` is not fixed; here and in `CAPSite` sets are kept as
insertion-ordered duplicate-free lists. -/
noncomputable def update_speed (tr : Track) (now : ℚ) : Track :=
  match tr.obj.T with
  | none => tr
  | some t =>
    match tr.last_t with
    | none => { tr with last_t := some now, last_u := t.U, last_v := t.V }
    | some lt =>
      match t.U, t.V, tr.last_u, tr.last_v with
      | some u, some v, some lu, some lv =>
        let dt := max (1/1000000 : ℚ) (now - lt)
        { tr with
          spd_mps := hypotR (((u - lu) / dt : ℚ) : ℝ) (((v - lv) / dt : ℚ) : ℝ),
          last_t := some now, last_u := some u, last_v := some v }
      | _, _, _, _ => tr

structure CAPSite where
  name : String
  center_uv : ℝ × ℝ
  radius_nm : ℚ := 10
  alt_lo_ft : ℚ := 20000
  alt_hi_ft : ℚ := 40000
  assigned_ids : List String := []

structure PushPlan where
  active : Bool := false
  brg : Option ℤ := none
  rng : Option ℤ := none
  target_uv : Option (ℝ × ℝ) := none
  exec_time : Option ℚ := none
  created_at : Option ℚ := none

structure WState where
  time : ℚ := 0
  objects : List (String × Obj) := []
  tracks : List (String × Track) := []
  last_seen : List (String × ℚ) := []
  bullseye_by_coal : List (String × String) := []
  ttl : ℚ := 10
  missiles : List (String × Obj) := []
  cap_sites : List (String × CAPSite) := []
  push_plan : PushPlan := {}

/-- Whether `upsert` records the object in the missile map. -/
def isMissileLike (o : Obj) : Bool :=
  (strContains o.otype "Weapon" ∧ (strContains o.otype "Missile" ∨ strContains o.otype "Guided"))
  ∨ MISSILE_HINTS.any (fun h => strContains o.name h)

open Classical in
/-- `WorldState.upsert(obj, now)`. -/
noncomputable def upsert (ws : WState) (obj : Obj) (now : ℚ) : WState :=
  let oid := obj.object_id
  let ws := { ws with objects := setA ws.objects oid obj,
                      last_seen := setA ws.last_seen oid now }
  let ws :=
    if (getA ws.tracks oid).isNone then
      { ws with tracks := setA ws.tracks oid (mkTrack obj) }
    else
      { ws with tracks := mapA ws.tracks oid (fun tr => { tr with obj := obj }) }
  let t := obj.otype
  let bkey := if obj.coalition = "" then "Unknown" else obj.coalition
  let ws :=
    if strContains t "Navaid+Static+Bullseye" ∨ strContains t "Navaid+Bullseye" then
      { ws with bullseye_by_coal := setA ws.bullseye_by_coal bkey oid }
    else ws
  -- learn "home plate" (first low-speed, low-alt fix)
  let ws :=
    if strContains t "Air" then
      match getA ws.tracks oid, obj.T with
      | some tr, some tf =>
        match tf.U, tf.V, tf.Altitude with
        | some u, some v, some alt =>
          if tr.home_uv = none then
            let kts : ℝ := tr.spd_mps * 1.943844492
            if kts < 60 ∧ ((alt : ℝ) < 300 ∨ (alt : ℝ) ≠ (alt : ℝ)) then
              { ws with tracks := mapA ws.tracks oid (fun tr => { tr with home_uv := some (u, v) }) }
            else ws
          else ws
        | _, _, _ => ws
      | _, _ => ws
    else ws
  if isMissileLike obj then { ws with missiles := setA ws.missiles oid obj } else ws

/-- `WorldState.remove(oid)`. -/
noncomputable def removeW (ws : WState) (oid : String) : WState :=
  { ws with
    objects := delA ws.objects oid,
    tracks := delA ws.tracks oid,
    last_seen := delA ws.last_seen oid,
    missiles := delA ws.missiles oid,
    bullseye_by_coal := ws.bullseye_by_coal.filter (fun p => ¬(p.2 = oid)),
    cap_sites := ws.cap_sites.map (fun p =>
      (p.1, { p.2 with assigned_ids := p.2.assigned_ids.filter (fun x => ¬(x = oid)) })) }

/-- `WorldState.cull_stale(now)`: iterate a snapshot of `last_seen`, removing
every entity whose last update is older than the TTL. -/
noncomputable def cull_stale (ws : WState) (now : ℚ) : WState :=
  ((ws.last_seen.filter (fun p => now - p.2 > ws.ttl)).map (fun p => p.1)).foldl removeW ws

/-- `WorldState.get_air`. -/
def get_air (ws : WState) : List Obj :=
  (ws.objects.map (fun p => p.2)).filter (fun o => strContains o.otype "Air" ∧ o.T.isSome)

def bluesW (ws : WState) : List Obj := (get_air ws).filter (fun o => coalition_of o = "Blue")
def redsW (ws : WState) : List Obj := (get_air ws).filter (fun o => coalition_of o = "Red")
def unksW (ws : WState) : List Obj := (get_air ws).filter (fun o => coalition_of o = "Unknown")

/-- `WorldState.find_bull`. -/
def find_bull (ws : WState) : Option Obj :=
  let fromPrefs := ["Allies", "Blue", "ROK", "NATO", "Training", "USA", "U.S."].findSome?
    (fun pref => (getA ws.bullseye_by_coal pref).bind (fun oid => getA ws.objects oid))
  match fromPrefs with
  | some o => some o
  | none =>
    match ws.bullseye_by_coal.findSome? (fun p => getA ws.objects p.2) with
    | some o => some o
    | none => (bluesW ws).head?

/-- `WorldState.nearest_tanker` (first Blue entity with a tanker-hint name). -/
def nearest_tanker (ws : WState) : Option Obj :=
  ((bluesW ws).filter (fun o => TANKER_HINTS.any (fun h => strContains o.name h))).head?

/-! ## Grouping & picture (`group_contacts`, `summarize_groups`,
`format_picture`) -/

/-- One entry of the `items` list built by `group_contacts`. -/
structure Item where
  o : Obj
  u : ℚ
  v : ℚ
  alt_ft : Option ℚ
deriving DecidableEq, Repr, Inhabited

/-- The `items` filtering at the top of `group_contacts`. -/
def mkItems (contacts : List Obj) : List Item :=
  contacts.filterMap (fun o =>
    match get_xy_mode o with
    | some (.uv u v) =>
      some { o := o, u := u, v := v,
             alt_ft := (o.T.bind (fun t => t.Altitude)).map (fun m => m * M_TO_FT) }
    | _ => none)

/-- The inner `close(a, b)` predicate of `group_contacts` (unknown altitudes
count as 0, exactly as `(a["alt_ft"] or 0)` does). -/
def closeI (rng_nm alt_ft : ℚ) (a b : Item) : Prop :=
  hypotR ((a.u - b.u : ℚ) : ℝ) ((a.v - b.v : ℚ) : ℝ) / (EARTH_M_PER_NM : ℝ) ≤ (rng_nm : ℝ)
  ∧ |(a.alt_ft.getD 0) - (b.alt_ft.getD 0)| ≤ alt_ft

open Classical in
/-- Body of the growing sweep: add index `j` when it is not yet in the
cluster and is close to some current member. -/
noncomputable def growStep (rng_nm alt_ft : ℚ) (items : List Item) (c : List ℕ) (j : ℕ) :
    List ℕ :=
  if j ∈ c then c
  else if ∃ k ∈ c, closeI rng_nm alt_ft (items.getD j default) (items.getD k default) then
    j :: c
  else c

/-- One sweep of the growing loop: try to add every index that is close to a
current cluster member (the cluster grows during the sweep, as in the Python
`for j ...: cluster.add(j)` loop). -/
noncomputable def growPass (rng_nm alt_ft : ℚ) (items : List Item) (c : List ℕ) : List ℕ :=
  (List.range items.length).foldl (growStep rng_nm alt_ft items) c

/-- The `while changed` loop, with enough fuel to reach the fixed point. -/
noncomputable def growLoop (rng_nm alt_ft : ℚ) (items : List Item) :
    ℕ → List ℕ → List ℕ
  | 0, c => c
  | fuel + 1, c =>
    let c' := growPass rng_nm alt_ft items c
    if c' = c then c else growLoop rng_nm alt_ft items fuel c'

/-- `sorted(cluster)` rendered back to items: members in ascending index
order. -/
def clusterGroup (items : List Item) (cluster : List ℕ) : List Item :=
  ((List.range items.length).filter (fun k => k ∈ cluster)).map (fun k => items.getD k default)

/-- Body of the outer `for i in range(len(items))` loop of `group_contacts`:
skip indices already used, otherwise grow a fresh cluster from `i` and emit
it. -/
noncomputable def outerStep (rng_nm alt_ft : ℚ) (items : List Item)
    (st : List ℕ × List (List Item)) (i : ℕ) : List ℕ × List (List Item) :=
  if i ∈ st.1 then st
  else
    let cluster := growLoop rng_nm alt_ft items (items.length + 1) [i]
    (st.1 ++ cluster, st.2 ++ [clusterGroup items cluster])

/-- `group_contacts`: single-link clustering; each finished cluster is emitted
as its members in ascending index order. -/
noncomputable def group_contacts (contacts : List Obj) (rng_nm alt_ft : ℚ) :
    List (List Item) :=
  let items := mkItems contacts
  ((List.range items.length).foldl (outerStep rng_nm alt_ft items) ([], [])).2

/-- A group summary produced by `summarize_groups`. -/
structure GSummary where
  size : ℕ
  brg : ℤ
  rng_nm : ℝ
  lo_ang : Option ℤ
  hi_ang : Option ℤ
  aspect : String
  ident : String
  centroid_uv : ℚ × ℚ

/-- Bump a counter in an insertion-ordered multiset (`defaultdict(int)`). -/
def bump (m : List (String × ℕ)) (k : String) : List (String × ℕ) :=
  if m.any (fun p => p.1 = k) then m.map (fun p => if p.1 = k then (k, p.2 + 1) else p)
  else m ++ [(k, 1)]

/-- Python `max(items, key=count)`: the first key attaining the maximal
count (later entries replace only on strictly greater count). -/
def argmaxCount (m : List (String × ℕ)) : Option String :=
  (m.foldl (fun best p =>
    match best with
    | none => some p
    | some q => if p.2 > q.2 then some p else some q) none).map (fun p => p.1)

/-- Per-member identity word used by `summarize_groups`. -/
def identWord (weapons_free : Bool) (coal : String) : String :=
  if weapons_free ∧ coal = "Red" then "Hostile"
  else if coal = "Blue" then "Friendly"
  else if coal = "Red" then "Bandit"
  else "Bogey"

/-- `summarize_groups` on one group (`coalition_of` reads no registry state,
so the `WorldState` parameter of the source is dropped). -/
noncomputable def summarize_one (bull_uv : ℚ × ℚ) (weapons_free : Bool)
    (g : List Item) : GSummary :=
  let size := g.length
  let cu : ℚ := (g.map (fun it => it.u)).sum / size
  let cv : ℚ := (g.map (fun it => it.v)).sum / size
  let br := brg_rng_from_xy ((bull_uv.1 : ℚ) : ℝ) ((bull_uv.2 : ℚ) : ℝ) ((cu : ℚ) : ℝ) ((cv : ℚ) : ℝ)
  let alts := g.filterMap (fun it => it.alt_ft)
  let lo_ang := alts.foldl (fun m a => some (match m with | none => a | some b => min b a)) none
  let hi_ang := alts.foldl (fun m a => some (match m with | none => a | some b => max b a)) none
  let id_counts := g.foldl (fun m it => bump m (identWord weapons_free (coalition_of it.o))) []
  let hdgs := g.filterMap (fun it => (it.o.T.bind (fun t => t.Heading)).map normHeadQ)
  let avg_hdg : Option ℚ := if hdgs = [] then none else some (hdgs.sum / hdgs.length)
  { size := size
    brg := br.1
    rng_nm := br.2
    lo_ang := lo_ang.map (fun a => pyroundQ (a / 1000))
    hi_ang := hi_ang.map (fun a => pyroundQ (a / 1000))
    aspect := aspect_word (avg_hdg.map (fun q => ((q : ℚ) : ℝ))) (some ((br.1 : ℤ) : ℝ))
    ident := (argmaxCount id_counts).getD "Bogey"
    centroid_uv := (cu, cv) }

open Classical in
/-- `summarize_groups`: summarize every group, then sort ascending by range
(Python's stable `list.sort`). -/
noncomputable def summarize_groups (groups : List (List Item)) (bull_uv : ℚ × ℚ)
    (weapons_free : Bool) : List GSummary :=
  (groups.map (summarize_one bull_uv weapons_free)).mergeSort
    (fun a b => decide (a.rng_nm ≤ b.rng_nm))

/-- `size_word`. -/
def size_word (n : ℕ) : String :=
  if n = 1 then "single" else if n = 2 then "two-ship"
  else if n = 3 then "three-ship" else if n = 4 then "four-ship"
  else toString n ++ "-ship"

/-- The `angels ...` fragment of a picture group line. -/
def angelsText (lo hi : Option ℤ) : String :=
  match lo, hi with
  | some l, some h => if l = h then "angels " ++ toString l
                      else "angels " ++ toString l ++ "-" ++ toString h
  | _, _ => "angels UNK"

/-- One group line of `format_picture` (without the leading label). -/
noncomputable def groupLine (label : String) (g : GSummary) : String :=
  let heavy := if g.size ≥ 3 then " HEAVY" else ""
  label ++ " BULLS " ++ fmt3 g.brg ++ " for " ++ toString (pyround g.rng_nm) ++ ", "
    ++ size_word g.size ++ heavy ++ ", " ++ lowerStr g.ident ++ ", "
    ++ angelsText g.lo_ang g.hi_ang ++ ", " ++ g.aspect ++ ". "

/-- `format_picture`. -/
noncomputable def format_picture (summaries : List GSummary) : String :=
  let interest := summaries.filter (fun s => s.ident = "Bogey" ∨ s.ident = "Bandit" ∨ s.ident = "Hostile")
  if interest.isEmpty then "PICTURE: CLEAN."
  else
    let n := interest.length
    let lead := if n = 1 then "single group" else if n = 2 then "two groups"
                else if n = 3 then "three groups" else toString n ++ " groups"
    let labels := ["Nearest group", "Second group", "Third group", "Fourth group", "Fifth group"]
    let body := String.join ((interest.take 5).enum.map
      (fun p => groupLine (labels.getD p.1 "") p.2))
    trimStr ("PICTURE: " ++ lead ++ ". " ++ body)

/-! ## Labels and fighter-centric operations -/

/-- Value of a nonempty digit string. -/
def digitsVal (l : List Char) : ℕ :=
  l.foldl (fun a c => a * 10 + (c.toNat - '0'.toNat)) 0

/-- `re.search(r'\d-\d$', p)`. -/
def endsDigitDashDigit (p : String) : Bool :=
  match p.toList.reverse with
  | d2 :: '-' :: d1 :: _ => d2.isDigit ∧ d1.isDigit
  | _ => false

/-- Separator class `[\s\-_]` of `_pilot_to_callsign`. -/
def sepChar (c : Char) : Bool := c.isWhitespace ∨ c = '-' ∨ c = '_'

/-- `_pilot_to_callsign`: "Warhawk52" → "Warhawk 5-2", "Plasma3" → "Plasma 3",
keep "Warhawk 1-1"; unmatched strings are returned as-is.  The two anchored
regexes are hand-compiled: their lazy separator run sits before a digit, so
it always consumes the whole separator run. -/
def pilotToCallsign (p : String) : Option String :=
  if p = "" then none
  else
    let p := trimStr p
    if endsDigitDashDigit p then some p
    else
      let cs := p.toList
      let letters := cs.takeWhile (fun c => c.isAlpha)
      let rest := cs.dropWhile (fun c => c.isAlpha)
      let fallback := some p
      if letters.isEmpty then fallback
      else
        let r1 := rest.dropWhile sepChar
        match r1 with
        | d1 :: r2 =>
          if d1.isDigit then
            let r3 := r2.dropWhile Char.isWhitespace
            match r3 with
            | [] => some (String.mk letters ++ " " ++ String.mk [d1])
            | _ =>
              let r4 := match r3 with
                        | '-' :: r => r.dropWhile Char.isWhitespace
                        | r => r
              match r4 with
              | d2 :: r5 =>
                if d2.isDigit ∧ (r5.dropWhile Char.isWhitespace).isEmpty then
                  some (String.mk letters ++ " " ++ String.mk [d1] ++ "-" ++ String.mk [d2])
                else fallback
              | [] => fallback
          else fallback
        | [] => fallback

/-- `_airframe_looks_generic_re`: the optional `[A-Z]{1,3}-` prefix is
subsumed by the following `[A-Za-z0-9\-]+`, so the regex accepts exactly the
nonempty alphanumeric-or-dash strings. -/
def airframeLooksGeneric (s : String) : Bool :=
  ¬(s = "") ∧ s.toList.all (fun c => c.isAlpha ∨ c.isDigit ∨ c = '-')

/-- `friendly_label`: Callsign > Pilot-derived callsign > Group/Unit >
cleaned Name > "Fighter". -/
def friendly_label (o : Obj) : String :=
  if ¬(o.callsign = "") ∧ ¬(trimStr o.callsign = "") then trimStr o.callsign
  else
    let fromPilot : Option String :=
      if ¬(o.pilot = "") then
        match pilotToCallsign o.pilot with
        | some l => if l = "" then none else some l
        | none => none
      else none
    match fromPilot with
    | some l => l
    | none =>
      if ¬(o.group = "") ∧ ¬(trimStr o.group = "") then trimStr o.group
      else if ¬(o.unit = "") ∧ ¬(trimStr o.unit = "") then trimStr o.unit
      else if ¬(o.name = "") ∧ ¬(trimStr o.name = "") then
        let s := trimStr o.name
        if airframeLooksGeneric s ∧
            ["F-", "MiG", "Su-", "KC-", "B-", "C-", "Mirage", "J-", "PL-"].any
              (fun x => strContains s x) then
          "Fighter"
        else s
      else "Fighter"

/-- The field generator inside `find_callsign`. -/
def fieldsOf (o : Obj) : List String :=
  [o.name] ++ ([o.callsign, o.pilot, o.unit, o.group].filter (fun v => ¬(v = "")))

/-- `find_callsign`. -/
def find_callsign (objects : List Obj) (callsign_substr : String) : Option Obj :=
  if callsign_substr = "" then none
  else
    let q := normStr callsign_substr
    objects.findSome? (fun o =>
      if (fieldsOf o).any (fun s => ¬(q = "") ∧ strContains (normStr s) q) then some o
      else none)

open Classical in
/-- `nearest_threat_to_fighter`: argmin of planar range over reds then
unknowns (strict improvement keeps the earlier candidate). -/
noncomputable def nearest_threat_to_fighter (ws : WState) (fighter : Obj) : Option Obj :=
  match uv_of fighter with
  | none => none
  | some (fu, fv) =>
    ((redsW ws ++ unksW ws).foldl (fun (best : Option Obj × ℝ) o =>
      match uv_of o with
      | none => best
      | some (ou, ov) =>
        let rng := (brg_rng_from_xy ((fu : ℚ) : ℝ) ((fv : ℚ) : ℝ) ((ou : ℚ) : ℝ) ((ov : ℚ) : ℝ)).2
        if rng < best.2 then (some o, rng) else best) (none, 1e18)).1

/-- `braa_from_fighter_to_target`. -/
noncomputable def braa_from_fighter_to_target (fighter target : Obj) : Option String :=
  match uv_of fighter, uv_of target with
  | some (fu, fv), some (tu, tv) =>
    let br := brg_rng_from_xy ((fu : ℚ) : ℝ) ((fv : ℚ) : ℝ) ((tu : ℚ) : ℝ) ((tv : ℚ) : ℝ)
    let alt_txt := threat_alt_phrase (target.T.bind (fun t => t.Altitude))
    let hdg := (target.T.bind (fun t => t.Heading)).map (fun h => ((normHeadQ h : ℚ) : ℝ))
    let asp := aspect_word hdg (some ((br.1 : ℤ) : ℝ))
    some ("BRAA " ++ fmt3 br.1 ++ "/" ++ toString (pyround br.2) ++ ", " ++ alt_txt ++ ", "
      ++ asp ++ ".")
  | _, _ => none

/-- `vector_from_fighter_to_uv`. -/
noncomputable def vector_from_fighter_to_uv (fighter : Obj) (target_uv : ℚ × ℚ) :
    Option String :=
  match uv_of fighter with
  | none => none
  | some (fu, fv) =>
    let br := brg_rng_from_xy ((fu : ℚ) : ℝ) ((fv : ℚ) : ℝ)
      ((target_uv.1 : ℚ) : ℝ) ((target_uv.2 : ℚ) : ℝ)
    some ("VECTOR " ++ fmt3 br.1 ++ ", " ++ toString (pyround br.2) ++ " miles.")

/-- `alpha_check_to_uv`. -/
noncomputable def alpha_check_to_uv (ws : WState) (target_uv : ℚ × ℚ) : Option String :=
  match (find_bull ws).bind uv_of with
  | none => none
  | some (bu, bv) =>
    let br := brg_rng_from_xy ((bu : ℚ) : ℝ) ((bv : ℚ) : ℝ)
      ((target_uv.1 : ℚ) : ℝ) ((target_uv.2 : ℚ) : ℝ)
    some ("ALPHA CHECK: BULLS " ++ fmt3 br.1 ++ " for " ++ toString (pyround br.2) ++ ".")

/-! ## CAP/PUSH argument parsing -/

/-- `_parse_alt_block`: `"<LO>-<HI>"` in thousands of feet (1–2 digit runs),
defaulting to 20–40. -/
def parse_alt_block (txt : String) : ℚ × ℚ :=
  let cs := txt.toList.dropWhile Char.isWhitespace
  let d1 := cs.takeWhile Char.isDigit
  let r1 := cs.dropWhile Char.isDigit
  let parsed : Option (ℕ × ℕ) :=
    if d1.length = 0 ∨ d1.length > 2 then none
    else
      match r1.dropWhile Char.isWhitespace with
      | '-' :: r3 =>
        let r4 := r3.dropWhile Char.isWhitespace
        let d2 := r4.takeWhile Char.isDigit
        let r5 := r4.dropWhile Char.isDigit
        if d2.length = 0 ∨ d2.length > 2 then none
        else if (r5.dropWhile Char.isWhitespace).isEmpty then
          some (digitsVal d1, digitsVal d2)
        else none
      | _ => none
  match parsed with
  | none => (20000, 40000)
  | some (lo, hi) =>
    let l : ℚ := max 0 (lo : ℚ) * 1000
    (l, max (l + 1000) ((hi : ℚ) * 1000))

/-- `_parse_time_offset`: seconds for `"in 90s"`, `"in 2m"`, `"at +2:30"`,
`"now"`; `none` when unrecognised. -/
def parse_time_offset (tstr : String) : Option ℚ :=
  if tstr = "" then none
  else
    let t := lowerStr (trimStr tstr)
    let viaIn : Option ℚ :=
      if startsWithStr t "in " then
        let t2 := (trimStr (dropStr t 3)).toList
        let ds := t2.takeWhile Char.isDigit
        let rest := t2.dropWhile Char.isDigit
        if ds.isEmpty then none
        else
          let v : ℚ := digitsVal ds
          match rest.dropWhile Char.isWhitespace with
          | ['s'] => some v
          | ['m'] => some (v * 60)
          | [] => if rest.isEmpty then some v else none
          | _ => none
      else none
    let viaAt : Option ℚ :=
      if startsWithStr t "at +" then
        let t2 := (trimStr (dropStr t 4)).toList
        let ds := t2.takeWhile Char.isDigit
        let rest := t2.dropWhile Char.isDigit
        if ds.isEmpty then none
        else
          match rest with
          | ':' :: r =>
            let ss := r.takeWhile Char.isDigit
            let r2 := r.dropWhile Char.isDigit
            if ¬ss.isEmpty ∧ ss.length ≤ 2 ∧ r2.isEmpty then
              some ((digitsVal ds : ℚ) * 60 + (digitsVal ss : ℚ))
            else none
          | [] => some (digitsVal ds : ℚ)
          | _ => none
      else none
    match viaIn with
    | some v => some v
    | none =>
      match viaAt with
      | some v => some v
      | none =>
        if t = "now" ∨ t = "immediately" ∨ t = "0" ∨ t = "+0" then some 0 else none

/-! ## Controller (`Controller.__init__`, the high-priority emitters, the
CAP/PUSH internals and the ingest loop body).  Emitted console lines are
returned as `List String` instead of being appended to `console_log`. -/

structure Ctrl where
  ws : WState := {}
  hz : ℚ := 1
  grp_range_nm : ℚ := 5
  grp_alt_ft : ℚ := 2000
  weapons_free : Bool := false
  last_emit_tick : ℤ := -1
  known_ids : List String := []
  last_merged_tick : ℤ := -9999
  merged_cooldown : ℤ := 10

/-- Whether some red/blue pair with planar positions is within `MERGED_NM`;
when so, the `MERGED` line for the first such red (in registry order). -/
noncomputable def merged_line_of (ws : WState) : Option String :=
  (redsW ws).findSome? (fun e =>
    (uv_of e).bind (fun euv =>
      if ∃ b ∈ bluesW ws, ∃ buv ∈ uv_of b,
          (brg_rng_from_xy ((euv.1 : ℚ) : ℝ) ((euv.2 : ℚ) : ℝ)
            ((buv.1 : ℚ) : ℝ) ((buv.2 : ℚ) : ℝ)).2 ≤ (MERGED_NM : ℝ) then
        some ("MERGED, " ++ threat_alt_phrase (e.T.bind (fun t => t.Altitude)) ++ ".")
      else none))

open Classical in
/-- `Controller._check_merged`. -/
noncomputable def check_merged (c : Ctrl) (tick_now : ℤ) : Ctrl × List String :=
  if (bluesW c.ws).isEmpty ∨ (redsW c.ws).isEmpty then (c, [])
  else
    match merged_line_of c.ws with
    | none => (c, [])
    | some line =>
      if tick_now - c.last_merged_tick ≥ c.merged_cooldown then
        ({ c with last_merged_tick := tick_now }, [line])
      else (c, [])

open Classical in
/-- The nearest-blue scan inside `_check_missile_birth` (argmin with strict
improvement, initial range `1e18`). -/
noncomputable def nearest_blue (ws : WState) (mu mv : ℚ) : Option Obj × ℝ :=
  (bluesW ws).foldl (fun (best : Option Obj × ℝ) b =>
    match uv_of b with
    | none => best
    | some (bu, bv) =>
      let rng := (brg_rng_from_xy ((mu : ℚ) : ℝ) ((mv : ℚ) : ℝ) ((bu : ℚ) : ℝ) ((bv : ℚ) : ℝ)).2
      if rng < best.2 then (some b, rng) else best) (none, 1e18)

/-- The `DEFEND` line for friendly `b` and a weapon at `(mu, mv)`. -/
noncomputable def defendLine (b : Obj) (mu mv : ℚ) : String :=
  match uv_of b with
  | none => ""
  | some (bu, bv) =>
    let br := brg_rng_from_xy ((bu : ℚ) : ℝ) ((bv : ℚ) : ℝ) ((mu : ℚ) : ℝ) ((mv : ℚ) : ℝ)
    friendly_label b ++ ", DEFEND! Missile inbound, BRAA " ++ fmt3 br.1 ++ "/"
      ++ toString (pyround br.2) ++ "."

open Classical in
/-- `Controller._check_missile_birth`: fires only for identifiers never seen
before (every processed identifier is added to the seen-set first). -/
noncomputable def check_missile_birth (c : Ctrl) (obj : Obj) : Ctrl × List String :=
  let oid := obj.object_id
  if oid ∈ c.known_ids then (c, [])
  else
    let c := { c with known_ids := c.known_ids ++ [oid] }
    if ¬isMissileLike obj then (c, [])
    else if coalition_of obj = "Blue" then (c, [])
    else
      match uv_of obj with
      | none => (c, [])
      | some (mu, mv) =>
        let best := nearest_blue c.ws mu mv
        match best.1 with
        | some b => if best.2 ≤ (MISSILE_ALERT_MAX_RANGE_NM : ℝ) then (c, [defendLine b mu mv])
                    else (c, [])
        | none => (c, [])

/-- The recipients of a push: the union of all CAP assignment sets
(duplicate-free, in site/insertion order). -/
def pushRecipients (caps : List (String × CAPSite)) : List String :=
  caps.foldl (fun acc p =>
    p.2.assigned_ids.foldl (fun a oid => if oid ∈ a then a else a ++ [oid]) acc) []

/-- The broadcast line sent to one recipient. -/
def pushLine (o : Obj) (p : PushPlan) : String :=
  friendly_label o ++ ", PUSH, BULLS " ++ fmt3 (p.brg.getD 0) ++ " for "
    ++ toString (p.rng.getD 0) ++ "."

/-- The broadcast lines `_try_execute_push` emits once it fires. -/
def pushBroadcast (ws : WState) : List String :=
  let recips := pushRecipients ws.cap_sites
  if recips.isEmpty then ["PUSH: no assigned flights."]
  else recips.filterMap (fun oid => (getA ws.objects oid).map (fun o => pushLine o ws.push_plan))

open Classical in
/-- `Controller._try_execute_push`: fire when armed and the simulation clock
has reached the execution time; executing clears the active flag. -/
noncomputable def try_execute_push (c : Ctrl) : Ctrl × List String :=
  let p := c.ws.push_plan
  if ¬p.active then (c, [])
  else if c.ws.time < p.exec_time.getD 0 then (c, [])
  else
    ({ c with ws := { c.ws with push_plan := { p with active := false } } }, pushBroadcast c.ws)

/-! ## Ingest loop body (`Controller._run_loop`) -/

/-- A decoded telemetry event (`ACTION_TIME` / `ACTION_GLOBAL` /
`ACTION_REMOVE` / `ACTION_UPDATE`). -/
inductive Event
  | timeEv (ts : Option ℚ)
  | globalEv
  | removeEv (oid : String)
  | updateEv (o : Obj)

/-- Heading normalisation applied to an update before storing
(`T.Heading = norm_head(T.Heading)`). -/
def normalizeObj (o : Obj) : Obj :=
  match o.T with
  | some t => { o with T := some { t with Heading := t.Heading.map normHeadQ } }
  | none => o

/-- The part of the TIME branch that runs before the tick check: clock update
(`ent.timestamp or self.ws.time` — a missing or zero timestamp keeps the old
clock), per-track speed refresh, staleness eviction. -/
noncomputable def timeAdvance (c : Ctrl) (ts : Option ℚ) : Ctrl :=
  let newTime := match ts with
                 | none => c.ws.time
                 | some x => if x = 0 then c.ws.time else x
  let ws := { c.ws with time := newTime }
  let ws := { ws with tracks := ws.tracks.map (fun p => (p.1, update_speed p.2 newTime)) }
  { c with ws := cull_stale ws newTime }

/-- One iteration of `Controller._run_loop` on a decoded event, returning the
new controller state and the console lines it logs. -/
noncomputable def ctrlStep (c : Ctrl) (ev : Event) : Ctrl × List String :=
  match ev with
  | .timeEv ts =>
    let c := timeAdvance c ts
    let tick := truncQ (c.ws.time * c.hz)
    if tick ≠ c.last_emit_tick then
      let c := { c with last_emit_tick := tick }
      let r1 := check_merged c tick
      let r2 := try_execute_push r1.1
      (r2.1, r1.2 ++ r2.2)
    else (c, [])
  | .globalEv => (c, [])
  | .removeEv oid => ({ c with ws := removeW c.ws oid }, [])
  | .updateEv o =>
    let o := normalizeObj o
    let r := check_missile_birth c o
    ({ r.1 with ws := upsert r.1.ws o r.1.ws.time }, r.2)

/-- Run the loop over a list of events, collecting all logged lines. -/
noncomputable def ctrlRun (c : Ctrl) (evs : List Event) : Ctrl × List String :=
  evs.foldl (fun st ev =>
    let r := ctrlStep st.1 ev
    (r.1, st.2 ++ r.2)) (c, [])

/-! ## Command dispatcher (`Controller.handle_text`)

Commands are embedded post-parse, as the tagged tuples `parse_command`
returns (cf. the design note that the regex grammar maps to a sum type with
one case per command shape).  `handleCmd` returns the updated controller,
the console lines logged as a side effect, and the reply text. -/

inductive Cmd
  | who | whoall | whounk
  | picture (cs : Option String)
  | bogeydope (cs : Option String)
  | declareCmd (cs : Option String)
  | declareBulls (cs : Option String) (brg rng : ℤ)
  | snap (cs : Option String)
  | vector (cs : Option String) (target : String)
  | alpha (cs : Option String) (target : Option String)
  | capAddBulls (name : String) (brg rng : ℤ) (radius : ℚ) (alt : String)
  | capAddAtFighter (name : String) (cs : String) (radius : ℚ) (alt : String)
  | capAssign (cs : String) (name : String)
  | capStatus (name : Option String)
  | capClear (name : String)
  | pushSet (brg rng : ℤ) (timePhrase : String)
  | pushStatus | pushCancel | pushExecute

/-- The calling friendly: the named one, else the first Blue track. -/
def frOf (blues : List Obj) (cs : Option String) : Option Obj :=
  match cs with
  | some c => find_callsign blues c
  | none => blues.head?

/-- Display used by `who` (`getattr(o, 'Name', '?')`; an absent attribute is
carried as `""` here). -/
def whoItem (o : Obj) : String := friendly_label o ++ " (" ++ o.name ++ ")"

/-- Display used by `who all` / `who unknown`. -/
def whoAllItem (o : Obj) : String :=
  o.name ++ " [Coal=" ++ o.coalition ++ ", Color=" ++ o.color ++ ", Type=" ++ o.otype ++ "]"

/-- `", ".join(l)` with a fallback for the empty list. -/
def joinOr (sep : String) (l : List String) (fallback : String) : String :=
  if l.isEmpty then fallback else String.intercalate sep l

open Classical in
/-- One CAP block of `Controller._cap_status_line` (pruning assignments whose
object is gone, as the source's `discard` does). -/
noncomputable def cap_status_one (ws : WState) (cap : CAPSite) : CAPSite × String :=
  let headL := cap.name ++ ": radius " ++ toString (pyroundQ cap.radius_nm) ++ " nm, alt "
    ++ toString (truncQ (cap.alt_lo_ft / 1000)) ++ "-" ++ toString (truncQ (cap.alt_hi_ft / 1000)) ++ "."
  let kept := cap.assigned_ids.filter (fun oid => (getA ws.objects oid).isSome)
  let shows := kept.filterMap (fun oid =>
    (getA ws.objects oid).map (fun o =>
      let lbl := friendly_label o
      match uv_of o with
      | some (ou, ov) =>
        let br := brg_rng_from_xy cap.center_uv.1 cap.center_uv.2 ((ou : ℚ) : ℝ) ((ov : ℚ) : ℝ)
        let alt_ft := (o.T.bind (fun t => t.Altitude)).map (fun m => m * M_TO_FT)
        let onSt := br.2 ≤ ((cap.radius_nm : ℚ) : ℝ) ∧
          (∃ a ∈ alt_ft, cap.alt_lo_ft ≤ a ∧ a ≤ cap.alt_hi_ft)
        lbl ++ " — " ++ toString (pyround br.2) ++ " nm off center, "
          ++ (if onSt then "on-station" else "off-station")
      | none => lbl ++ " — pos unknown"))
  let tail := if shows.isEmpty then "   assigned: none" else "   assigned: " ++ String.intercalate "; " shows
  ({ cap with assigned_ids := kept }, headL ++ "\n" ++ tail)

open Classical in
/-- `Controller._cap_status_line`. -/
noncomputable def cap_status_line (ws : WState) (name : Option String) : WState × String :=
  if ws.cap_sites.isEmpty then (ws, "CAP: none.")
  else
    match name with
    | some n =>
      (match getA ws.cap_sites n with
       | none => (ws, "CAP: " ++ n ++ " not found.")
       | some cap =>
         let r := cap_status_one ws cap
         ({ ws with cap_sites := setA ws.cap_sites n r.1 }, r.2))
    | none =>
      let res := ws.cap_sites.map (fun p => (p.1, cap_status_one ws p.2))
      ({ ws with cap_sites := res.map (fun p => (p.1, p.2.1)) },
       String.intercalate "\n" (res.map (fun p => p.2.2)))

/-- `Controller._push_status_line`. -/
def push_status_line (ws : WState) : String :=
  let p := ws.push_plan
  if ¬p.active then "PUSH: no plan."
  else "PUSH: BULLS " ++ fmt3 (p.brg.getD 0) ++ " for " ++ toString (p.rng.getD 0)
    ++ ", exec at T+" ++ toString (truncQ (max 0 (p.exec_time.getD 0 - ws.time))) ++ "s."

open Classical in
/-- `Controller.handle_text`, from the parsed command onward: returns
`(controller, logged lines, reply)`. -/
noncomputable def handleCmd (c : Ctrl) (cmd : Cmd) : Ctrl × List String × String :=
  let ws := c.ws
  let bull := find_bull ws
  let buv := bull.bind uv_of
  let blues := bluesW ws
  let reds := redsW ws
  let unks := unksW ws
  let interest := reds ++ unks
  match cmd with
  | .who =>
    (c, [], "Blue tracks: " ++ joinOr ", " ((blues.take 50).map whoItem) "none")
  | .whoall =>
    (c, [],
      "Seen — Blue:" ++ toString blues.length ++ " Red:" ++ toString reds.length
        ++ " Unknown:" ++ toString unks.length ++ "\n"
        ++ "Blue:    " ++ joinOr ", " ((blues.take 12).map whoAllItem) "—" ++ "\n"
        ++ "Red:     " ++ joinOr ", " ((reds.take 12).map whoAllItem) "—" ++ "\n"
        ++ "Unknown: " ++ joinOr ", " ((unks.take 12).map whoAllItem) "—")
  | .whounk =>
    (c, [], "Unknown tracks: " ++ joinOr ", " ((unks.take 25).map whoAllItem) "none")
  | .picture cs =>
    let pic :=
      match buv with
      | some b =>
        if ¬interest.isEmpty then
          format_picture (summarize_groups (group_contacts interest c.grp_range_nm c.grp_alt_ft)
            b c.weapons_free)
        else "PICTURE: CLEAN."
      | none => if interest.isEmpty then "PICTURE: CLEAN." else "PICTURE: no bullseye available yet."
    (c, [], match cs with | some s => s ++ ", " ++ pic | none => pic)
  | .bogeydope cs =>
    (match frOf blues cs with
     | none => (c, [], cs.getD "Fighter" ++ ", UNABLE: no friendly reference available.")
     | some fr =>
       match nearest_threat_to_fighter ws fr with
       | none => (c, [], friendly_label fr ++ ", PICTURE: CLEAN.")
       | some tgt =>
         (c, [], friendly_label fr ++ ", BOGEY DOPE: "
           ++ (braa_from_fighter_to_target fr tgt).getD "None"))
  | .declareCmd cs =>
    (match frOf blues cs with
     | none => (c, [], cs.getD "Fighter" ++ ", UNABLE: declare (no friendly reference).")
     | some fr =>
       match nearest_threat_to_fighter ws fr with
       | none => (c, [], "DECLARE: no factor.")
       | some tgt =>
         let coal := coalition_of tgt
         let ident := if coal = "Blue" then "Friendly" else if coal = "Red" then "Bandit" else "Bogey"
         (c, [], "DECLARE: " ++ ident ++ "."))
  | .declareBulls _ brg rng =>
    (match buv with
     | none => (c, [], "DECLARE: no bullseye available.")
     | some (bu, bv) =>
       let tuv := bulls_to_uv ((bu : ℚ) : ℝ) ((bv : ℚ) : ℝ) ((brg : ℤ) : ℝ) ((rng : ℤ) : ℝ)
       let best := (interest ++ blues).foldl (fun (best : Option Obj × ℝ) o =>
         match uv_of o with
         | none => best
         | some (ou, ov) =>
           let rnm := (brg_rng_from_xy tuv.1 tuv.2 ((ou : ℚ) : ℝ) ((ov : ℚ) : ℝ)).2
           if rnm < best.2 then (some o, rnm) else best) (none, 1e18)
       match best.1 with
       | none => (c, [], "DECLARE: no factor.")
       | some b =>
         if best.2 > 6 then (c, [], "DECLARE: no factor.")
         else
           let coal := coalition_of b
           let ident := if coal = "Blue" then "Friendly" else if coal = "Red" then "Bandit" else "Bogey"
           (c, [], "DECLARE: " ++ ident ++ "."))
  | .snap cs =>
    (match frOf blues cs with
     | none => (c, [], cs.getD "Fighter" ++ ", UNABLE: snap (no friendly reference).")
     | some fr =>
       match nearest_threat_to_fighter ws fr with
       | none => (c, [], friendly_label fr ++ ", SNAP: no factor.")
       | some tgt =>
         match (uv_of tgt).bind (vector_from_fighter_to_uv fr) with
         | some line => (c, [], friendly_label fr ++ ", " ++ line)
         | none => (c, [], "UNABLE: snap."))
  | .vector cs target =>
    (match frOf blues cs with
     | none => (c, [], cs.getD "Fighter" ++ ", UNABLE: vector (no friendly reference).")
     | some fr =>
       let tgt_name := lowerStr (trimStr target)
       if strContains tgt_name "home" then
         let tuv := match getA ws.tracks fr.object_id with
                    | some tr => match tr.home_uv with
                                 | some h => some h
                                 | none => uv_of fr
                    | none => uv_of fr
         match tuv.bind (vector_from_fighter_to_uv fr) with
         | some line => (c, [], friendly_label fr ++ ", " ++ line)
         | none => (c, [], "UNABLE: vector home.")
       else if strContains tgt_name "tanker" then
         match nearest_tanker ws with
         | none => (c, [], "UNABLE: no tanker.")
         | some tan =>
           match (uv_of tan).bind (vector_from_fighter_to_uv fr) with
           | some line => (c, [], friendly_label fr ++ ", " ++ line)
           | none => (c, [], "UNABLE: vector tanker.")
       else
         match find_callsign blues target with
         | none => (c, [], "UNABLE: target not found.")
         | some tgt =>
           match (uv_of tgt).bind (vector_from_fighter_to_uv fr) with
           | some line => (c, [], friendly_label fr ++ ", " ++ line)
           | none => (c, [], "UNABLE: vector."))
  | .alpha cs target =>
    (match buv with
     | none => (c, [], "ALPHA CHECK: no bullseye available.")
     | some _ =>
       let tgt_key := lowerStr (stripSpaces (target.getD ""))
       let fr := frOf blues cs
       let tgt_uv : Option (ℚ × ℚ) :=
         if tgt_key = "home" ∨ tgt_key = "homeplate" ∨ tgt_key = "homebase" then
           match fr with
           | some f =>
             (match getA ws.tracks f.object_id with
              | some tr => match tr.home_uv with
                           | some h => some h
                           | none => uv_of f
              | none => uv_of f)
           | none => none
         else if tgt_key = "tanker" then (nearest_tanker ws).bind uv_of
         else fr.bind uv_of
       match tgt_uv.bind (alpha_check_to_uv ws) with
       | some line =>
         (match cs with
          | some s => (c, [], s ++ ", " ++ line)
          | none =>
            match fr with
            | some f => (c, [], friendly_label f ++ ", " ++ line)
            | none => (c, [], line))
       | none =>
         (c, [], (cs.getD (match fr with | some f => friendly_label f | none => "Fighter"))
           ++ ", UNABLE: alpha check."))
  | .capAddBulls nm brg rng radius alt =>
    (match buv with
     | none => (c, [], "CAP: UNABLE — no bullseye.")
     | some (bu, bv) =>
       let ctr := bulls_to_uv ((bu : ℚ) : ℝ) ((bv : ℚ) : ℝ) ((brg : ℤ) : ℝ) ((rng : ℤ) : ℝ)
       let lohi := parse_alt_block alt
       let cap : CAPSite := { name := nm, center_uv := ctr, radius_nm := radius,
                              alt_lo_ft := lohi.1, alt_hi_ft := lohi.2 }
       ({ c with ws := { ws with cap_sites := setA ws.cap_sites nm cap } }, [],
        "CAP: " ++ nm ++ " set at BULLS " ++ fmt3 brg ++ "/" ++ toString rng ++ ", radius "
          ++ toString (truncQ radius) ++ " nm, alt " ++ toString (truncQ (lohi.1 / 1000))
          ++ "-" ++ toString (truncQ (lohi.2 / 1000)) ++ "."))
  | .capAddAtFighter nm fcs radius alt =>
    (match find_callsign blues fcs with
     | none => (c, [], "CAP: UNABLE — fighter not found.")
     | some f =>
       match uv_of f with
       | none => (c, [], "CAP: UNABLE — fighter pos unknown.")
       | some (fu, fv) =>
         let lohi := parse_alt_block alt
         let cap : CAPSite := { name := nm, center_uv := (((fu : ℚ) : ℝ), ((fv : ℚ) : ℝ)),
                                radius_nm := radius, alt_lo_ft := lohi.1, alt_hi_ft := lohi.2 }
         ({ c with ws := { ws with cap_sites := setA ws.cap_sites nm cap } }, [],
          "CAP: " ++ nm ++ " set at " ++ friendly_label f ++ " position, radius "
            ++ toString (truncQ radius) ++ " nm, alt " ++ toString (truncQ (lohi.1 / 1000))
            ++ "-" ++ toString (truncQ (lohi.2 / 1000)) ++ "."))
  | .capAssign fcs nm =>
    (match find_callsign blues fcs with
     | none => (c, [], "CAP: UNABLE — fighter not found.")
     | some fighter =>
       match getA ws.cap_sites nm with
       | none => (c, [], "CAP: " ++ nm ++ " not found.")
       | some cap =>
         let cap' := { cap with assigned_ids :=
           if fighter.object_id ∈ cap.assigned_ids then cap.assigned_ids
           else cap.assigned_ids ++ [fighter.object_id] }
         ({ c with ws := { ws with cap_sites := setA ws.cap_sites nm cap' } }, [],
          "CAP: assigned " ++ friendly_label fighter ++ " to " ++ cap.name ++ "."))
  | .capStatus nm =>
    let r := cap_status_line ws nm
    ({ c with ws := r.1 }, [], r.2)
  | .capClear nm =>
    if nm = "all" then
      ({ c with ws := { ws with cap_sites := [] } }, [], "CAP: cleared all.")
    else if (getA ws.cap_sites nm).isSome then
      ({ c with ws := { ws with cap_sites := delA ws.cap_sites nm } }, [],
       "CAP: cleared " ++ nm ++ ".")
    else (c, [], "CAP: " ++ nm ++ " not found.")
  | .pushSet brg rng timePhrase =>
    (match buv with
     | none => (c, [], "PUSH: UNABLE — no bullseye.")
     | some (bu, bv) =>
       match parse_time_offset timePhrase with
       | none => (c, [], "PUSH: UNABLE — bad time (use 'now', 'in 90s', 'in 2m', or 'at +mm:ss').")
       | some offs =>
         -- `(ws.time or 0.0)` coincides with `ws.time` on the rational carrier
         let tuv := bulls_to_uv ((bu : ℚ) : ℝ) ((bv : ℚ) : ℝ) ((brg : ℤ) : ℝ) ((rng : ℤ) : ℝ)
         let p : PushPlan :=
           { active := true
             brg := some brg
             rng := some rng
             target_uv := some tuv
             exec_time := some (ws.time + offs)
             created_at := some ws.time }
         let when := if offs = 0 then "now" else "T+" ++ toString (truncQ offs) ++ "s"
         ({ c with ws := { ws with push_plan := p } }, [],
          "PUSH: set BULLS " ++ fmt3 brg ++ "/" ++ toString rng ++ ", exec " ++ when ++ "."))
  | .pushStatus => (c, [], push_status_line ws)
  | .pushCancel =>
    ({ c with ws := { ws with push_plan := {} } }, [], "PUSH: canceled.")
  | .pushExecute =>
    if ¬ws.push_plan.active then (c, [], "PUSH: no plan.")
    else
      let c2 := { c with ws := { ws with push_plan := { ws.push_plan with exec_time := some ws.time } } }
      let r := try_execute_push c2
      (r.1, r.2, "PUSH: executed.")

/-! ## Association-list lemmas -/

theorem getA_cons {α : Type} (a : String) (b : α) (m : List (String × α)) (k : String) :
    getA ((a, b) :: m) k = if a = k then some b else getA m k := by
  by_cases h : a = k <;> simp [getA, List.find?_cons, h]

theorem getA_nil {α : Type} (k : String) : getA ([] : List (String × α)) k = none := rfl

theorem getA_eq_none_iff {α : Type} (m : List (String × α)) (k : String) :
    getA m k = none ↔ ∀ p ∈ m, p.1 ≠ k := by
  induction m with
  | nil => simp [getA_nil]
  | cons x m ih =>
    rcases x with ⟨a, b⟩
    by_cases h : a = k <;> simp [getA_cons, h, ih]

theorem getA_append {α : Type} (m₁ m₂ : List (String × α)) (k : String) :
    getA (m₁ ++ m₂) k = match getA m₁ k with
      | some v => some v
      | none => getA m₂ k := by
  induction m₁ with
  | nil => simp [getA_nil]
  | cons x m ih =>
    rcases x with ⟨a, b⟩
    by_cases h : a = k <;> simp [getA_cons, h, ih]

theorem getA_map_replace {α : Type} (m : List (String × α)) (k : String) (v : α)
    (h : m.any (fun p => p.1 = k) = true) :
    getA (m.map (fun p => if p.1 = k then (k, v) else p)) k = some v := by
  induction m with
  | nil => simp at h
  | cons x m ih =>
    rcases x with ⟨a, b⟩
    by_cases hx : a = k
    · simp [hx, getA_cons]
    · have h' : m.any (fun p => p.1 = k) = true := by simpa [hx] using h
      simpa [hx, getA_cons] using ih h'

theorem getA_setA_self {α : Type} (m : List (String × α)) (k : String) (v : α) :
    getA (setA m k v) k = some v := by
  unfold setA
  split
  · exact getA_map_replace m k v (by assumption)
  · have hnone : getA m k = none := by
      rw [getA_eq_none_iff]
      intro p hp
      rename_i hany
      intro hk
      exact hany (List.any_eq_true.2 ⟨p, hp, by simp [hk]⟩)
    rw [getA_append, hnone]
    simp [getA_cons]

theorem getA_map_replace_ne {α : Type} (m : List (String × α)) (k k' : String) (v : α)
    (h : ¬k = k') :
    getA (m.map (fun p => if p.1 = k then (k, v) else p)) k' = getA m k' := by
  induction m with
  | nil => simp
  | cons x m ih =>
    rcases x with ⟨a, b⟩
    by_cases hx : a = k
    · subst hx
      simp [getA_cons, h, ih]
    · by_cases hk' : a = k' <;> simp [getA_cons, hx, hk', ih, Ne.symm h]

theorem getA_setA_ne {α : Type} (m : List (String × α)) (k k' : String) (v : α)
    (h : ¬k = k') : getA (setA m k v) k' = getA m k' := by
  unfold setA
  split
  · exact getA_map_replace_ne m k k' v h
  · rw [getA_append]
    cases hm : getA m k' with
    | some v' => simp
    | none => simp [getA_cons, getA_nil, h]

theorem getA_mapA_self {α : Type} (m : List (String × α)) (k : String) (f : α → α) :
    getA (mapA m k f) k = (getA m k).map f := by
  unfold mapA
  induction m with
  | nil => simp [getA_nil]
  | cons x m ih =>
    rcases x with ⟨a, b⟩
    by_cases hx : a = k <;> simp [getA_cons, hx, ih]

theorem getA_mapA_ne {α : Type} (m : List (String × α)) (k k' : String) (f : α → α)
    (h : ¬k = k') : getA (mapA m k f) k' = getA m k' := by
  unfold mapA
  induction m with
  | nil => simp
  | cons x m ih =>
    rcases x with ⟨a, b⟩
    by_cases hx : a = k
    · subst hx
      simp [getA_cons, h, ih]
    · by_cases hk' : a = k' <;> simp [getA_cons, hx, hk', ih, Ne.symm h]

theorem getA_delA_self {α : Type} (m : List (String × α)) (k : String) :
    getA (delA m k) k = none := by
  rw [getA_eq_none_iff]
  intro p hp
  unfold delA at hp
  have := List.of_mem_filter hp
  simpa using this

theorem getA_delA_ne {α : Type} (m : List (String × α)) (k k' : String)
    (h : ¬k = k') : getA (delA m k) k' = getA m k' := by
  unfold delA
  induction m with
  | nil => simp
  | cons x m ih =>
    rcases x with ⟨a, b⟩
    by_cases hx : a = k
    · subst hx
      simp only [List.filter_cons, decide_not]
      simp [getA_cons, h, decide_not] at ih ⊢
      exact ih
    · simp only [List.filter_cons, decide_not]
      by_cases hk' : a = k'
      · simp [getA_cons, hx, hk', decide_not, Ne.symm h] at ih ⊢
      · simp [getA_cons, hx, hk', decide_not] at ih ⊢
        exact ih

/-! ## C10: entities at the exact planar origin have no planar position -/

/-- C10: for every entity whose transform reports `U = 0.0` and `V = 0.0` (or
both absent), `get_xy_mode` ignores the planar fields — it falls back to
longitude/latitude when both are present and otherwise yields nothing — and
`uv_of` returns `none`, so the entity is excluded from every planar
computation. -/
theorem C10_origin_entity_has_no_planar_position (o : Obj) (t : Transform)
    (hT : o.T = some t)
    (hU : t.U = none ∨ t.U = some 0) (hV : t.V = none ∨ t.V = some 0) :
    get_xy_mode o = (match t.Longitude, t.Latitude with
      | some lon, some lat => some (XYMode.ll lon lat)
      | _, _ => none) ∧ uv_of o = none := by
  have hm : get_xy_mode o = (match t.Longitude, t.Latitude with
      | some lon, some lat => some (XYMode.ll lon lat)
      | _, _ => none) := by
    unfold get_xy_mode
    rw [hT]
    dsimp only
    rw [if_neg]
    push_neg
    exact ⟨hU, hV⟩
  refine ⟨hm, ?_⟩
  unfold uv_of
  rw [hm]
  rcases t.Longitude with _ | lon <;> rcases t.Latitude with _ | lat <;> simp

/-- Concrete instance of C10: an entity parked exactly at the planar origin
with no geodetic fallback resolves to no position at all. -/
theorem C10_witness :
    get_xy_mode { T := some { U := some 0, V := some 0 } } = none ∧
    uv_of { T := some { U := some 0, V := some 0 } } = none :=
  C10_origin_entity_has_no_planar_position { T := some { U := some 0, V := some 0 } }
    { U := some 0, V := some 0 } rfl (Or.inr rfl) (Or.inr rfl)

/-! ## C9: a discovered home plate is never overwritten -/

/-- One `upsert` preserves an already-set home plate. -/
theorem upsert_preserves_home (ws : WState) (obj : Obj) (now : ℚ)
    (oid : String) (tr : Track) (p : ℚ × ℚ)
    (h : getA ws.tracks oid = some tr) (hp : tr.home_uv = some p) :
    ∃ tr', getA (upsert ws obj now).tracks oid = some tr' ∧ tr'.home_uv = some p := by
  unfold upsert
  by_cases hid : obj.object_id = oid
  · subst hid
    dsimp only
    simp only [h, Option.isNone_some, Bool.false_eq_true, if_false]
    have h2 : getA (mapA ws.tracks obj.object_id (fun tr => { tr with obj := obj }))
        obj.object_id = some { tr with obj := obj } := by
      rw [getA_mapA_self, h]
      rfl
    refine ⟨{ tr with obj := obj }, ?_, hp⟩
    repeat' split
    all_goals dsimp only
    all_goals try exact h2
    all_goals simp_all [apply_ite WState.tracks]
    all_goals (subst_vars; simp_all)
  · dsimp only
    refine ⟨tr, ?_, hp⟩
    repeat' split
    all_goals dsimp only
    all_goals
      simp only [getA_setA_ne _ _ _ _ hid, getA_mapA_ne _ _ _ _ hid, h]

/-- C9: once an entity's home plate has been discovered (`home_uv` set), no
later sequence of `upsert`s ever overwrites it: after every subsequent update
the track still exists and stores the identical home position. -/
theorem C9_home_plate_set_once (ws : WState) (oid : String) (tr : Track) (p : ℚ × ℚ)
    (h : getA ws.tracks oid = some tr) (hp : tr.home_uv = some p)
    (upds : List (Obj × ℚ)) :
    ∃ tr', getA ((upds.foldl (fun w e => upsert w e.1 e.2) ws).tracks) oid = some tr'
      ∧ tr'.home_uv = some p := by
  induction upds generalizing ws tr with
  | nil => exact ⟨tr, h, hp⟩
  | cons e rest ih =>
    obtain ⟨tr', h', hp'⟩ := upsert_preserves_home ws e.1 e.2 oid tr p h hp
    simpa using ih (upsert ws e.1 e.2) tr' h' hp'

/-- Track of the C9 witness: home plate already discovered at `(5, 6)`. -/
def c9Track : Track := { obj := { object_id := "f1" }, home_uv := some (5, 6) }

/-- World of the C9 witness. -/
def c9World : WState := { tracks := [("f1", c9Track)] }

/-- A later update for the same aircraft (now fast and high). -/
def c9Update : Obj :=
  { object_id := "f1", otype := "Air+FixedWing",
    T := some { U := some 99999, V := some 88888, Altitude := some 8000 } }

/-- Concrete instance of C9: the later update leaves the recorded home plate
untouched. -/
theorem C9_witness :
    ∃ tr', getA (([(c9Update, (5 : ℚ))].foldl (fun w e => upsert w e.1 e.2) c9World).tracks)
      "f1" = some tr' ∧ tr'.home_uv = some (5, 6) :=
  C9_home_plate_set_once c9World "f1" c9Track (5, 6) rfl rfl _

/-! ## C4: stale entities are purged from every registry structure -/

/-- `oid` is absent from the object, track, last-seen and missile maps, from
every bullseye-reference slot and from every CAP assignment set. -/
def purgedFrom (ws : WState) (oid : String) : Prop :=
  getA ws.objects oid = none ∧ getA ws.tracks oid = none ∧
  getA ws.last_seen oid = none ∧ getA ws.missiles oid = none ∧
  (∀ pr ∈ ws.bullseye_by_coal, pr.2 ≠ oid) ∧
  (∀ pr ∈ ws.cap_sites, oid ∉ pr.2.assigned_ids)

theorem removeW_purges (ws : WState) (oid : String) : purgedFrom (removeW ws oid) oid := by
  refine ⟨getA_delA_self _ _, getA_delA_self _ _, getA_delA_self _ _, getA_delA_self _ _,
    ?_, ?_⟩
  · intro pr hpr
    have := List.of_mem_filter hpr
    simpa using this
  · intro pr hpr hmem
    simp only [removeW, List.mem_map] at hpr
    obtain ⟨pre, _, hpre⟩ := hpr
    rw [← hpre] at hmem
    have := List.of_mem_filter hmem
    simp at this

theorem removeW_preserves_purged (ws : WState) (oid j : String)
    (h : purgedFrom ws oid) : purgedFrom (removeW ws j) oid := by
  by_cases hj : j = oid
  · subst hj
    exact removeW_purges ws j
  · obtain ⟨h1, h2, h3, h4, h5, h6⟩ := h
    refine ⟨?_, ?_, ?_, ?_, ?_, ?_⟩
    · rw [show (removeW ws j).objects = delA ws.objects j from rfl, getA_delA_ne _ _ _ hj]
      exact h1
    · rw [show (removeW ws j).tracks = delA ws.tracks j from rfl, getA_delA_ne _ _ _ hj]
      exact h2
    · rw [show (removeW ws j).last_seen = delA ws.last_seen j from rfl, getA_delA_ne _ _ _ hj]
      exact h3
    · rw [show (removeW ws j).missiles = delA ws.missiles j from rfl, getA_delA_ne _ _ _ hj]
      exact h4
    · intro pr hpr
      exact h5 pr (List.mem_of_mem_filter hpr)
    · intro pr hpr hmem
      simp only [removeW, List.mem_map] at hpr
      obtain ⟨pre, hpre_mem, hpre⟩ := hpr
      rw [← hpre] at hmem
      exact h6 pre hpre_mem (List.mem_of_mem_filter hmem)

theorem foldl_removeW_preserves_purged (ids : List String) (ws : WState) (oid : String)
    (h : purgedFrom ws oid) : purgedFrom (ids.foldl removeW ws) oid := by
  induction ids generalizing ws with
  | nil => exact h
  | cons j rest ih => exact ih (removeW ws j) (removeW_preserves_purged ws oid j h)

theorem foldl_removeW_of_mem (ids : List String) (ws : WState) (oid : String)
    (h : oid ∈ ids) : purgedFrom (ids.foldl removeW ws) oid := by
  induction ids generalizing ws with
  | nil => simp at h
  | cons j rest ih =>
    rcases List.mem_cons.1 h with hj | hrest
    · subst hj
      by_cases hr : oid ∈ rest
      · exact ih (removeW ws oid) hr
      · exact foldl_removeW_preserves_purged rest (removeW ws oid) oid (removeW_purges ws oid)
    · exact ih (removeW ws j) hrest

/-- Object-map keys agree with the stored objects' identifiers. -/
def wfObjects (ws : WState) : Prop := ∀ pr ∈ ws.objects, pr.2.object_id = pr.1

theorem foldl_removeW_preserves_wf (ids : List String) (ws : WState)
    (hwf : wfObjects ws) : wfObjects (ids.foldl removeW ws) := by
  induction ids generalizing ws with
  | nil => exact hwf
  | cons j rest ih =>
    refine ih (removeW ws j) ?_
    intro pr hpr
    exact hwf pr (List.mem_of_mem_filter hpr)

theorem purged_absent_from_air (ws : WState) (oid : String)
    (h : getA ws.objects oid = none) (hwf : wfObjects ws) :
    ∀ o ∈ get_air ws, o.object_id ≠ oid := by
  intro o ho
  have ho' : o ∈ ws.objects.map (fun p => p.2) := List.mem_of_mem_filter ho
  obtain ⟨pr, hpr, hpro⟩ := List.mem_map.1 ho'
  have hk := (getA_eq_none_iff _ _).1 h pr hpr
  rw [← hpro, hwf pr hpr]
  exact hk

/-- C4: every entity whose last-seen time is older than the TTL is, after
`cull_stale`, absent from the object map, the track map, the missile map,
every bullseye-reference slot and every CAP assignment set — and hence from
every registry query (here: `get_air`, whose sub-filters `blues`/`reds`/
`unks` it subsumes). -/
theorem C4_stale_entity_fully_evicted (ws : WState) (now : ℚ) (oid : String) (t0 : ℚ)
    (hseen : getA ws.last_seen oid = some t0) (hstale : now - t0 > ws.ttl)
    (hwf : wfObjects ws) :
    purgedFrom (cull_stale ws now) oid ∧
    ∀ o ∈ get_air (cull_stale ws now), o.object_id ≠ oid := by
  have hfind : ∃ pr ∈ ws.last_seen, pr.1 = oid ∧ pr.2 = t0 := by
    unfold getA at hseen
    cases hf : ws.last_seen.find? (fun p => p.1 = oid) with
    | none => rw [hf] at hseen; simp at hseen
    | some pr =>
      rw [hf] at hseen
      simp at hseen
      refine ⟨pr, List.mem_of_find?_eq_some hf, ?_, by simpa using hseen⟩
      have := List.find?_some hf
      simpa using this
  obtain ⟨pr, hmem, hk, hv⟩ := hfind
  have hstale' : oid ∈ (ws.last_seen.filter (fun p => now - p.2 > ws.ttl)).map (fun p => p.1) := by
    refine List.mem_map.2 ⟨pr, ?_, hk⟩
    refine List.mem_filter.2 ⟨hmem, ?_⟩
    rw [hv]
    exact decide_eq_true hstale
  have hpurged : purgedFrom (cull_stale ws now) oid := foldl_removeW_of_mem _ _ _ hstale'
  refine ⟨hpurged, purged_absent_from_air _ _ hpurged.1 ?_⟩
  exact foldl_removeW_preserves_wf _ _ hwf

/-- World of the C4 witness: one entity, present in every registry
structure, last seen at time 0 with TTL 10. -/
def c4World : WState :=
  { last_seen := [("e1", 0)]
    objects := [("e1", { object_id := "e1", otype := "Air+FixedWing" })]
    tracks := [("e1", { obj := { object_id := "e1" } })]
    missiles := [("e1", { object_id := "e1" })]
    bullseye_by_coal := [("Allies", "e1")]
    cap_sites := [("cap1", { name := "cap1", center_uv := (0, 0), assigned_ids := ["e1"] })] }

/-- Concrete instance of C4: at time 11 the entity (stale by 11 s > TTL 10 s)
is gone from every structure and from the air query. -/
theorem C4_witness :
    purgedFrom (cull_stale c4World 11) "e1" ∧
    ∀ o ∈ get_air (cull_stale c4World 11), o.object_id ≠ "e1" :=
  C4_stale_entity_fully_evicted c4World 11 "e1" 0 rfl (by norm_num [c4World])
    (by intro pr hpr; simp only [c4World, List.mem_singleton] at hpr; subst hpr; rfl)

/-! ## C6: bearing/range roundtrip -/

theorem pyround_intCast (n : ℤ) : pyround ((n : ℤ) : ℝ) = n := by
  unfold pyround
  simp only [Int.floor_intCast, sub_self]
  norm_num

theorem pyround_ratCast (q : ℚ) : pyround ((q : ℚ) : ℝ) = pyroundQ q := by
  unfold pyround pyroundQ
  dsimp only
  rw [Rat.floor_cast]
  have e : (q : ℝ) - ((⌊q⌋ : ℤ) : ℝ) = ((q - (⌊q⌋ : ℤ) : ℚ) : ℝ) := by push_cast; ring
  rw [e, show ((1 : ℝ)/2) = (((1 : ℚ)/2 : ℚ) : ℝ) by norm_num]
  simp only [Rat.cast_lt]

theorem radiansR_degreesR (x : ℝ) : radiansR (degreesR x) = x := by
  unfold radiansR degreesR
  field_simp

theorem sin_radiansR_fmodR (a : ℝ) :
    Real.sin (radiansR (fmodR a 360)) = Real.sin (radiansR a) := by
  have h : radiansR (fmodR a 360) = radiansR a + ((-⌊a / 360⌋ : ℤ) : ℝ) * (2 * Real.pi) := by
    unfold fmodR radiansR
    push_cast
    ring
  rw [h, Real.sin_add_int_mul_two_pi]

theorem cos_radiansR_fmodR (a : ℝ) :
    Real.cos (radiansR (fmodR a 360)) = Real.cos (radiansR a) := by
  have h : radiansR (fmodR a 360) = radiansR a + ((-⌊a / 360⌋ : ℤ) : ℝ) * (2 * Real.pi) := by
    unfold fmodR radiansR
    push_cast
    ring
  rw [h, Real.cos_add_int_mul_two_pi]

theorem hypotR_eq_complexAbs (dx dy : ℝ) :
    hypotR dx dy = Complex.abs ⟨dy, dx⟩ := by
  rw [Complex.abs_apply, Complex.normSq_mk]
  unfold hypotR
  congr 1
  ring

theorem sin_atan2_mul_hypot (dx dy : ℝ) (h : ¬(dx = 0 ∧ dy = 0)) :
    Real.sin (atan2 dx dy) * hypotR dx dy = dx := by
  have hz : (⟨dy, dx⟩ : ℂ) ≠ 0 := by
    intro hz
    rw [Complex.ext_iff] at hz
    simp only [Complex.zero_re, Complex.zero_im] at hz
    exact h ⟨hz.2, hz.1⟩
  rw [hypotR_eq_complexAbs, atan2, Complex.sin_arg]
  exact div_mul_cancel₀ _ (Complex.abs.ne_zero hz)

theorem cos_atan2_mul_hypot (dx dy : ℝ) (h : ¬(dx = 0 ∧ dy = 0)) :
    Real.cos (atan2 dx dy) * hypotR dx dy = dy := by
  have hz : (⟨dy, dx⟩ : ℂ) ≠ 0 := by
    intro hz
    rw [Complex.ext_iff] at hz
    simp only [Complex.zero_re, Complex.zero_im] at hz
    exact h ⟨hz.2, hz.1⟩
  rw [hypotR_eq_complexAbs, atan2, Complex.cos_arg hz]
  exact div_mul_cancel₀ _ (Complex.abs.ne_zero hz)

theorem radiansR_add_360 (d : ℝ) : radiansR (d + 360) = radiansR d + 2 * Real.pi := by
  unfold radiansR
  field_simp
  ring

theorem sin_radiansR_bearing (dx dy : ℝ) :
    Real.sin (radiansR (bearing_deg dx dy)) = Real.sin (atan2 dx dy) := by
  unfold bearing_deg
  rw [sin_radiansR_fmodR, radiansR_add_360, Real.sin_add_two_pi, radiansR_degreesR]

theorem cos_radiansR_bearing (dx dy : ℝ) :
    Real.cos (radiansR (bearing_deg dx dy)) = Real.cos (atan2 dx dy) := by
  unfold bearing_deg
  rw [cos_radiansR_fmodR, radiansR_add_360, Real.cos_add_two_pi, radiansR_degreesR]

theorem sin_radiansR_intMod (n : ℤ) :
    Real.sin (radiansR ((n % 360 : ℤ) : ℝ)) = Real.sin (radiansR ((n : ℤ) : ℝ)) := by
  have h : radiansR ((n % 360 : ℤ) : ℝ)
      = radiansR ((n : ℤ) : ℝ) + ((-(n / 360) : ℤ) : ℝ) * (2 * Real.pi) := by
    rw [Int.emod_def]
    unfold radiansR
    push_cast
    ring
  rw [h, Real.sin_add_int_mul_two_pi]

theorem cos_radiansR_intMod (n : ℤ) :
    Real.cos (radiansR ((n % 360 : ℤ) : ℝ)) = Real.cos (radiansR ((n : ℤ) : ℝ)) := by
  have h : radiansR ((n % 360 : ℤ) : ℝ)
      = radiansR ((n : ℤ) : ℝ) + ((-(n / 360) : ℤ) : ℝ) * (2 * Real.pi) := by
    rw [Int.emod_def]
    unfold radiansR
    push_cast
    ring
  rw [h, Real.cos_add_int_mul_two_pi]

/-- C6 (amended): `brg_rng_from_xy` rounds the bearing to a whole degree, so
the `bulls_to_uv` reconstruction applied to its output reproduces the target
point exactly whenever the true bearing is an integer number of degrees (and,
in general, only up to the error introduced by that rounding — see the
counterexample). -/
theorem C6_roundtrip_exact_on_integral_bearing (ou ov tu tv : ℝ) (n : ℤ)
    (hb : bearing_deg (tu - ou) (tv - ov) = (n : ℝ)) :
    bulls_to_uv ou ov (((brg_rng_from_xy ou ov tu tv).1 : ℤ) : ℝ)
      (brg_rng_from_xy ou ov tu tv).2 = (tu, tv) := by
  have h1 : (brg_rng_from_xy ou ov tu tv).1 = n % 360 := by
    unfold brg_rng_from_xy
    dsimp only
    rw [hb, pyround_intCast]
  have h2 : (brg_rng_from_xy ou ov tu tv).2
      = hypotR (tu - ou) (tv - ov) / ((EARTH_M_PER_NM : ℚ) : ℝ) := rfl
  have hE : ((EARTH_M_PER_NM : ℚ) : ℝ) = 1852 := by norm_num [EARTH_M_PER_NM]
  have hsin : Real.sin (radiansR (((brg_rng_from_xy ou ov tu tv).1 : ℤ) : ℝ))
      = Real.sin (atan2 (tu - ou) (tv - ov)) := by
    rw [h1, sin_radiansR_intMod, ← hb, sin_radiansR_bearing]
  have hcos : Real.cos (radiansR (((brg_rng_from_xy ou ov tu tv).1 : ℤ) : ℝ))
      = Real.cos (atan2 (tu - ou) (tv - ov)) := by
    rw [h1, cos_radiansR_intMod, ← hb, cos_radiansR_bearing]
  unfold bulls_to_uv
  dsimp only
  rw [h2, hE, div_mul_cancel₀ _ (by norm_num : (1852 : ℝ) ≠ 0), hsin, hcos]
  by_cases hz : tu - ou = 0 ∧ tv - ov = 0
  · obtain ⟨hx, hy⟩ := hz
    have h0 : hypotR (tu - ou) (tv - ov) = 0 := by
      unfold hypotR
      rw [hx, hy]
      simp
    rw [h0]
    simp only [mul_zero, add_zero, Prod.mk.injEq]
    constructor
    · linarith
    · linarith
  · rw [sin_atan2_mul_hypot _ _ hz, cos_atan2_mul_hypot _ _ hz]
    simp only [Prod.mk.injEq]
    constructor
    · ring
    · ring

/-- Concrete instance of the amended C6: a target due north of the origin
(bearing exactly 0°) is reconstructed exactly. -/
theorem C6_witness :
    bulls_to_uv 0 0 (((brg_rng_from_xy 0 0 0 1852).1 : ℤ) : ℝ)
      (brg_rng_from_xy 0 0 0 1852).2 = (0, 1852) := by
  refine C6_roundtrip_exact_on_integral_bearing 0 0 0 1852 0 ?_
  have h0 : atan2 (0 - 0) (1852 - 0) = 0 := by
    unfold atan2
    have : (⟨1852 - 0, 0 - 0⟩ : ℂ) = ((1852 : ℝ) : ℂ) := by
      rw [Complex.ext_iff]
      norm_num
    rw [this, Complex.arg_ofReal_of_nonneg (by norm_num)]
  unfold bearing_deg
  rw [h0]
  unfold degreesR fmodR
  norm_num

/-- C6 (counterexample to the claim as stated): for origin `(0, 0)` and
target `(100000 m, 20000000 m)` the true bearing `arctan(1/200) ≈ 0.286°`
rounds to `0`, so the reconstruction lands on the v-axis — its u-coordinate
is `0`, a full 100 km (≈ 54 NM) from the original point, not within
floating-point tolerance (not even within 1 NM = 1852 m). -/
theorem C6_counterexample :
    (bulls_to_uv 0 0 (((brg_rng_from_xy 0 0 100000 20000000).1 : ℤ) : ℝ)
        (brg_rng_from_xy 0 0 100000 20000000).2).1 = 0 ∧
    ¬(|(bulls_to_uv 0 0 (((brg_rng_from_xy 0 0 100000 20000000).1 : ℤ) : ℝ)
        (brg_rng_from_xy 0 0 100000 20000000).2).1 - 100000| ≤ 1852) := by
  have harg : atan2 (100000 : ℝ) 20000000 = Real.arctan (100000 / 20000000) := by
    unfold atan2
    have hlt : |Complex.arg ⟨(20000000 : ℝ), (100000 : ℝ)⟩| < Real.pi / 2 := by
      refine Complex.abs_arg_lt_pi_div_two_iff.2 (Or.inl ?_)
      norm_num
    have habs := abs_lt.1 hlt
    have htan : Real.tan (Complex.arg ⟨(20000000 : ℝ), (100000 : ℝ)⟩)
        = (100000 : ℝ) / 20000000 := Complex.tan_arg _
    rw [← htan, Real.arctan_tan habs.1 habs.2]
  have hθpos : 0 < atan2 (100000 : ℝ) 20000000 := by
    rw [harg]
    have := Real.arctan_strictMono (show (0 : ℝ) < 100000 / 20000000 by norm_num)
    rwa [Real.arctan_zero] at this
  have hθlt : atan2 (100000 : ℝ) 20000000 < 1 / 200 := by
    rw [harg]
    have h2 : Real.arctan ((100000 : ℝ) / 20000000) < Real.pi / 2 :=
      Real.arctan_lt_pi_div_two _
    have h3 := Real.lt_tan (by rw [← harg]; exact hθpos) h2
    rw [Real.tan_arctan] at h3
    calc Real.arctan ((100000 : ℝ) / 20000000) < 100000 / 20000000 := h3
    _ = 1 / 200 := by norm_num
  have hpi : (3.141592 : ℝ) < Real.pi := Real.pi_gt_3141592
  have hdpos : 0 < degreesR (atan2 (100000 : ℝ) 20000000) := by
    unfold degreesR
    positivity
  have hdlt : degreesR (atan2 (100000 : ℝ) 20000000) < 0.29 := by
    unfold degreesR
    rw [div_lt_iff (by positivity)]
    calc atan2 (100000 : ℝ) 20000000 * 180 < (1 / 200) * 180 := by
          have := hθlt
          nlinarith
    _ ≤ 0.29 * Real.pi := by nlinarith
  have hfmod : fmodR (degreesR (atan2 (100000 : ℝ) 20000000) + 360) 360
      = degreesR (atan2 (100000 : ℝ) 20000000) := by
    unfold fmodR
    have hfl : ⌊(degreesR (atan2 (100000 : ℝ) 20000000) + 360) / 360⌋ = 1 := by
      rw [Int.floor_eq_iff]
      constructor
      · rw [le_div_iff (by norm_num : (0:ℝ) < 360)]
        push_cast
        linarith
      · rw [div_lt_iff (by norm_num : (0:ℝ) < 360)]
        push_cast
        linarith
    rw [hfl]
    ring
  have hpyr : pyround (degreesR (atan2 (100000 : ℝ) 20000000)) = 0 := by
    unfold pyround
    have hfl : ⌊degreesR (atan2 (100000 : ℝ) 20000000)⌋ = 0 := by
      rw [Int.floor_eq_iff]
      constructor
      · push_cast
        linarith
      · push_cast
        linarith
    rw [hfl]
    rw [if_pos]
    push_cast
    linarith
  have hbrg : (brg_rng_from_xy 0 0 100000 20000000).1 = 0 := by
    unfold brg_rng_from_xy bearing_deg
    dsimp only
    rw [show (100000 : ℝ) - 0 = 100000 by norm_num,
        show (20000000 : ℝ) - 0 = 20000000 by norm_num, hfmod, hpyr]
    rfl
  have hfirst : (bulls_to_uv 0 0 (((brg_rng_from_xy 0 0 100000 20000000).1 : ℤ) : ℝ)
      (brg_rng_from_xy 0 0 100000 20000000).2).1 = 0 := by
    unfold bulls_to_uv
    dsimp only
    rw [hbrg]
    unfold radiansR
    norm_num
  refine ⟨hfirst, ?_⟩
  rw [hfirst]
  norm_num

/-! ## C8: grouping computes a close-closed cluster around every contact -/

theorem closeI_symm (rng_nm alt_ft : ℚ) (a b : Item)
    (h : closeI rng_nm alt_ft a b) : closeI rng_nm alt_ft b a := by
  obtain ⟨h1, h2⟩ := h
  constructor
  · have e : hypotR ((b.u - a.u : ℚ) : ℝ) ((b.v - a.v : ℚ) : ℝ)
        = hypotR ((a.u - b.u : ℚ) : ℝ) ((a.v - b.v : ℚ) : ℝ) := by
      unfold hypotR
      congr 1
      push_cast
      ring
    rw [e]
    exact h1
  · rw [abs_sub_comm]
    exact h2

theorem mem_growStep (rng_nm alt_ft : ℚ) (items : List Item) (c : List ℕ) (j x : ℕ)
    (h : x ∈ c) : x ∈ growStep rng_nm alt_ft items c j := by
  unfold growStep
  split
  · exact h
  · split
    · exact List.mem_cons_of_mem _ h
    · exact h

theorem growStep_cases (rng_nm alt_ft : ℚ) (items : List Item) (c : List ℕ) (j : ℕ) :
    growStep rng_nm alt_ft items c j = c ∨ growStep rng_nm alt_ft items c j = j :: c := by
  unfold growStep
  split
  · exact Or.inl rfl
  · split
    · exact Or.inr rfl
    · exact Or.inl rfl

theorem mem_foldl_growStep (rng_nm alt_ft : ℚ) (items : List Item) (l : List ℕ)
    (c : List ℕ) (x : ℕ) (h : x ∈ c) :
    x ∈ l.foldl (growStep rng_nm alt_ft items) c := by
  induction l generalizing c with
  | nil => exact h
  | cons j l ih => exact ih _ (mem_growStep _ _ _ _ _ _ h)

theorem mem_foldl_growStep_of_close (rng_nm alt_ft : ℚ) (items : List Item)
    (l : List ℕ) (c : List ℕ) (j : ℕ) (hj : j ∈ l)
    (hcl : ∃ k ∈ c, closeI rng_nm alt_ft (items.getD j default) (items.getD k default)) :
    j ∈ l.foldl (growStep rng_nm alt_ft items) c := by
  induction l generalizing c with
  | nil => simp at hj
  | cons j' l ih =>
    rw [List.foldl_cons]
    rcases List.mem_cons.1 hj with hj' | hrest
    · subst hj'
      refine mem_foldl_growStep _ _ _ _ _ _ ?_
      unfold growStep
      split
      · assumption
      all_goals exact List.mem_cons_self _ _
    · refine ih _ hrest ?_
      obtain ⟨k, hk, hkcl⟩ := hcl
      exact ⟨k, mem_growStep _ _ _ _ _ _ hk, hkcl⟩

theorem growPass_closed (rng_nm alt_ft : ℚ) (items : List Item) (c : List ℕ)
    (hfix : growPass rng_nm alt_ft items c = c) (j : ℕ) (hj : j < items.length)
    (hcl : ∃ k ∈ c, closeI rng_nm alt_ft (items.getD j default) (items.getD k default)) :
    j ∈ c := by
  rw [← hfix]
  exact mem_foldl_growStep_of_close _ _ _ _ _ _ (List.mem_range.2 hj) hcl

theorem foldl_growStep_bounds (rng_nm alt_ft : ℚ) (items : List Item) (l : List ℕ)
    (c : List ℕ) (hl : ∀ j ∈ l, j < items.length) (hc : ∀ x ∈ c, x < items.length) :
    ∀ x ∈ l.foldl (growStep rng_nm alt_ft items) c, x < items.length := by
  induction l generalizing c with
  | nil => exact hc
  | cons j l ih =>
    refine ih _ (fun x hx => hl x (List.mem_cons_of_mem _ hx)) ?_
    rcases growStep_cases rng_nm alt_ft items c j with h | h <;> rw [h]
    · exact hc
    · intro x hx
      rcases List.mem_cons.1 hx with hx' | hx'
      · subst hx'
        exact hl x (List.mem_cons_self _ _)
      · exact hc x hx'

theorem foldl_growStep_nodup (rng_nm alt_ft : ℚ) (items : List Item) (l : List ℕ)
    (c : List ℕ) (hc : c.Nodup) :
    (l.foldl (growStep rng_nm alt_ft items) c).Nodup := by
  induction l generalizing c with
  | nil => exact hc
  | cons j l ih =>
    refine ih _ ?_
    unfold growStep
    split
    · exact hc
    · split
      · exact List.Nodup.cons (by assumption) hc
      · exact hc

theorem foldl_growStep_eq_or_longer (rng_nm alt_ft : ℚ) (items : List Item)
    (l : List ℕ) (c : List ℕ) :
    l.foldl (growStep rng_nm alt_ft items) c = c ∨
    c.length < (l.foldl (growStep rng_nm alt_ft items) c).length := by
  induction l generalizing c with
  | nil => exact Or.inl rfl
  | cons j l ih =>
    rcases growStep_cases rng_nm alt_ft items c j with h | h <;> rw [List.foldl_cons, h]
    · exact ih c
    · rcases ih (j :: c) with h' | h' <;> right
      · rw [h']
        simp
      · calc c.length < (j :: c).length := by simp
        _ < _ := h'

theorem nodup_bounded_length_le (c : List ℕ) (n : ℕ) (hnd : c.Nodup)
    (hbd : ∀ x ∈ c, x < n) : c.length ≤ n := by
  classical
  have h1 : c.length = c.toFinset.card := (List.toFinset_card_of_nodup hnd).symm
  have h2 : c.toFinset ⊆ Finset.range n := by
    intro x hx
    rw [Finset.mem_range]
    exact hbd x (List.mem_toFinset.1 hx)
  rw [h1]
  simpa using Finset.card_le_card h2

theorem growLoop_good (rng_nm alt_ft : ℚ) (items : List Item) (fuel : ℕ) (c : List ℕ)
    (hnd : c.Nodup) (hbd : ∀ x ∈ c, x < items.length)
    (hfuel : items.length + 1 - c.length ≤ fuel) :
    growPass rng_nm alt_ft items (growLoop rng_nm alt_ft items fuel c)
        = growLoop rng_nm alt_ft items fuel c ∧
      (growLoop rng_nm alt_ft items fuel c).Nodup ∧
      (∀ x ∈ growLoop rng_nm alt_ft items fuel c, x < items.length) ∧
      ∀ x ∈ c, x ∈ growLoop rng_nm alt_ft items fuel c := by
  induction fuel generalizing c with
  | zero =>
    exfalso
    have := nodup_bounded_length_le c items.length hnd hbd
    omega
  | succ fuel ih =>
    rw [growLoop]
    split
    · rename_i hfix
      exact ⟨hfix, hnd, hbd, fun x hx => hx⟩
    · rename_i hne
      have hlong : c.length < (growPass rng_nm alt_ft items c).length := by
        rcases foldl_growStep_eq_or_longer rng_nm alt_ft items
          (List.range items.length) c with h | h
        · exact absurd h hne
        · exact h
      have hnd' : (growPass rng_nm alt_ft items c).Nodup :=
        foldl_growStep_nodup _ _ _ _ _ hnd
      have hbd' : ∀ x ∈ growPass rng_nm alt_ft items c, x < items.length :=
        foldl_growStep_bounds _ _ _ _ _ (fun j hj => List.mem_range.1 hj) hbd
      obtain ⟨h1, h2, h3, h4⟩ := ih (growPass rng_nm alt_ft items c) hnd' hbd' (by omega)
      exact ⟨h1, h2, h3, fun x hx => h4 x (mem_foldl_growStep _ _ _ _ _ _ hx)⟩

/-- A finished cluster: a fixed point of the growing sweep with in-range
indices. -/
def GoodCluster (rng_nm alt_ft : ℚ) (items : List Item) (C : List ℕ) : Prop :=
  growPass rng_nm alt_ft items C = C ∧ ∀ x ∈ C, x < items.length

theorem foldl_outerStep_covers (rng_nm alt_ft : ℚ) (items : List Item)
    (l : List ℕ) (st : List ℕ × List (List Item))
    (hl : ∀ j ∈ l, j < items.length)
    (hst : ∀ j ∈ st.1, ∃ C, GoodCluster rng_nm alt_ft items C ∧ j ∈ C ∧
      clusterGroup items C ∈ st.2) :
    ∀ j, (j ∈ st.1 ∨ j ∈ l) →
      ∃ C, GoodCluster rng_nm alt_ft items C ∧ j ∈ C ∧
        clusterGroup items C ∈ (l.foldl (outerStep rng_nm alt_ft items) st).2 := by
  induction l generalizing st with
  | nil =>
    intro j hj
    rcases hj with hj | hj
    · exact hst j hj
    · simp at hj
  | cons i l ih =>
    rw [List.foldl_cons]
    by_cases hi : i ∈ st.1
    · rw [show outerStep rng_nm alt_ft items st i = st from by unfold outerStep; rw [if_pos hi]]
      intro j hj
      refine ih st (fun x hx => hl x (List.mem_cons_of_mem _ hx)) hst j ?_
      rcases hj with hj | hj
      · exact Or.inl hj
      · rcases List.mem_cons.1 hj with hj' | hj'
        · exact Or.inl (hj' ▸ hi)
        · exact Or.inr hj'
    · have hstep : outerStep rng_nm alt_ft items st i
          = (st.1 ++ growLoop rng_nm alt_ft items (items.length + 1) [i],
             st.2 ++ [clusterGroup items (growLoop rng_nm alt_ft items (items.length + 1) [i])]) := by
        unfold outerStep
        rw [if_neg hi]
      rw [hstep]
      obtain ⟨hfix, hnd', hbd', hsub⟩ := growLoop_good rng_nm alt_ft items
        (items.length + 1) [i] (List.nodup_singleton i)
        (by intro x hx; rw [List.mem_singleton] at hx; rw [hx]; exact hl i (List.mem_cons_self _ _))
        (by simp)
      set Ci := growLoop rng_nm alt_ft items (items.length + 1) [i] with hCi
      have hiCi : i ∈ Ci := hsub i (List.mem_singleton_self i)
      have hst' : ∀ j ∈ st.1 ++ Ci, ∃ C, GoodCluster rng_nm alt_ft items C ∧ j ∈ C ∧
          clusterGroup items C ∈ st.2 ++ [clusterGroup items Ci] := by
        intro j hj
        rcases List.mem_append.1 hj with hj | hj
        · obtain ⟨C, hC, hjC, hCg⟩ := hst j hj
          exact ⟨C, hC, hjC, List.mem_append_left _ hCg⟩
        · exact ⟨Ci, ⟨hfix, hbd'⟩, hj, List.mem_append_right _ (List.mem_singleton_self _)⟩
      intro j hj
      refine ih _ (fun x hx => hl x (List.mem_cons_of_mem _ hx)) hst' j ?_
      rcases hj with hj | hj
      · exact Or.inl (List.mem_append_left _ hj)
      · rcases List.mem_cons.1 hj with hj' | hj'
        · exact Or.inl (List.mem_append_right _ (hj' ▸ hiCi))
        · exact Or.inr hj'

/-- C8: contact grouping is transitively closed over the pairwise closeness
relation: if contact `i` is close to `j` and `j` is close to `k`, all three
land in one group produced by `group_contacts`, even when `i` and `k` alone
exceed the thresholds. -/
theorem C8_clustering_transitive (contacts : List Obj) (rng_nm alt_ft : ℚ)
    (i j k : ℕ)
    (hi : i < (mkItems contacts).length) (hj : j < (mkItems contacts).length)
    (hk : k < (mkItems contacts).length)
    (hij : closeI rng_nm alt_ft ((mkItems contacts).getD i default)
      ((mkItems contacts).getD j default))
    (hjk : closeI rng_nm alt_ft ((mkItems contacts).getD j default)
      ((mkItems contacts).getD k default)) :
    ∃ G ∈ group_contacts contacts rng_nm alt_ft,
      (mkItems contacts).getD i default ∈ G ∧
      (mkItems contacts).getD j default ∈ G ∧
      (mkItems contacts).getD k default ∈ G := by
  set items := mkItems contacts with hitems
  have hcov := foldl_outerStep_covers rng_nm alt_ft items
    (List.range items.length) ([], [])
    (fun x hx => List.mem_range.1 hx) (by intro x hx; simp at hx)
    i (Or.inr (List.mem_range.2 hi))
  obtain ⟨C, ⟨hfix, hbd⟩, hiC, hG⟩ := hcov
  have hjC : j ∈ C :=
    growPass_closed rng_nm alt_ft items C hfix j hj ⟨i, hiC, closeI_symm _ _ _ _ hij⟩
  have hkC : k ∈ C :=
    growPass_closed rng_nm alt_ft items C hfix k hk ⟨j, hjC, closeI_symm _ _ _ _ hjk⟩
  refine ⟨clusterGroup items C, hG, ?_, ?_, ?_⟩
  · exact List.mem_map.2 ⟨i, List.mem_filter.2 ⟨List.mem_range.2 hi, by simpa using hiC⟩, rfl⟩
  · exact List.mem_map.2 ⟨j, List.mem_filter.2 ⟨List.mem_range.2 hj, by simpa using hjC⟩, rfl⟩
  · exact List.mem_map.2 ⟨k, List.mem_filter.2 ⟨List.mem_range.2 hk, by simpa using hkC⟩, rfl⟩

theorem hypotR_x_zero (a : ℝ) : hypotR a 0 = |a| := by
  unfold hypotR
  rw [show a ^ 2 + (0 : ℝ) ^ 2 = a ^ 2 by ring, Real.sqrt_sq_eq_abs]

/-- An air contact on the u-axis for the C8 witness. -/
def c8Contact (u : ℚ) : Obj :=
  { otype := "Air+FixedWing", T := some { U := some u, V := some 0 } }

/-- Contacts at 1, 5 and 9 NM east: A–B and B–C are 4 NM apart (within the
5 NM threshold), A–C are 8 NM apart (beyond it). -/
def c8Contacts : List Obj := [c8Contact 1852, c8Contact 9260, c8Contact 16668]

/-- Concrete instance of C8: the chain lands in one group even though its
endpoints exceed the threshold. -/
theorem C8_witness :
    closeI 5 2000 ((mkItems c8Contacts).getD 0 default) ((mkItems c8Contacts).getD 1 default) ∧
    closeI 5 2000 ((mkItems c8Contacts).getD 1 default) ((mkItems c8Contacts).getD 2 default) ∧
    ∃ G ∈ group_contacts c8Contacts 5 2000,
      (mkItems c8Contacts).getD 0 default ∈ G ∧
      (mkItems c8Contacts).getD 1 default ∈ G ∧
      (mkItems c8Contacts).getD 2 default ∈ G := by
  have hclose : ∀ a b : ℚ, ((a - b : ℚ) : ℝ) = -7408 →
      hypotR ((a - b : ℚ) : ℝ) ((0 - 0 : ℚ) : ℝ) / ((EARTH_M_PER_NM : ℚ) : ℝ) ≤ ((5 : ℚ) : ℝ) := by
    intro a b hab
    rw [hab, show ((0 - 0 : ℚ) : ℝ) = 0 by norm_num, hypotR_x_zero]
    rw [show |(-7408 : ℝ)| = 7408 by rw [abs_neg, abs_of_nonneg] <;> norm_num]
    norm_num [EARTH_M_PER_NM]
  have h01 : closeI 5 2000 ((mkItems c8Contacts).getD 0 default)
      ((mkItems c8Contacts).getD 1 default) := by
    constructor
    · exact hclose 1852 9260 (by norm_num)
    · show |(0 : ℚ) - 0| ≤ 2000
      norm_num
  have h12 : closeI 5 2000 ((mkItems c8Contacts).getD 1 default)
      ((mkItems c8Contacts).getD 2 default) := by
    constructor
    · exact hclose 9260 16668 (by norm_num)
    · show |(0 : ℚ) - 0| ≤ 2000
      norm_num
  exact ⟨h01, h12,
    C8_clustering_transitive c8Contacts 5 2000 0 1 2 (by decide) (by decide) (by decide) h01 h12⟩

/-! ## C3: MERGED alerting -/

/-- Red contact `e` has a planar position and some friendly within
`MERGED_NM`. -/
def mergedHit (ws : WState) (e : Obj) : Prop :=
  ∃ euv ∈ uv_of e, ∃ b ∈ bluesW ws, ∃ buv ∈ uv_of b,
    (brg_rng_from_xy ((euv.1 : ℚ) : ℝ) ((euv.2 : ℚ) : ℝ)
      ((buv.1 : ℚ) : ℝ) ((buv.2 : ℚ) : ℝ)).2 ≤ ((MERGED_NM : ℚ) : ℝ)

/-- Some (hostile, friendly) pair is within merge range. -/
def mergedPairExists (ws : WState) : Prop := ∃ e ∈ redsW ws, mergedHit ws e

/-- The MERGED console line for a given red contact. -/
def mergedLineFor (e : Obj) : String :=
  "MERGED, " ++ threat_alt_phrase (e.T.bind (fun t => t.Altitude)) ++ "."

theorem merged_line_of_eq_none_iff (ws : WState) :
    merged_line_of ws = none ↔ ¬mergedPairExists ws := by
  unfold merged_line_of mergedPairExists mergedHit
  rw [List.findSome?_eq_none_iff]
  constructor
  · rintro h ⟨e, he, euv, heuv, hit⟩
    have := h e he
    rw [heuv] at this
    simp only [Option.some_bind] at this
    rw [if_pos hit] at this
    simp at this
  · intro h e he
    cases heuv : uv_of e with
    | none => simp [heuv]
    | some euv =>
      simp only [heuv, Option.some_bind]
      rw [if_neg]
      intro hit
      exact h ⟨e, he, euv, by rw [heuv]; exact Option.mem_some_self _, hit⟩

theorem merged_line_of_eq_some (ws : WState) (line : String)
    (h : merged_line_of ws = some line) :
    ∃ e ∈ redsW ws, mergedHit ws e ∧ line = mergedLineFor e := by
  unfold merged_line_of at h
  obtain ⟨e, he, hg⟩ := List.exists_of_findSome?_eq_some h
  cases heuv : uv_of e with
  | none => rw [heuv] at hg; simp at hg
  | some euv =>
    rw [heuv] at hg
    simp only [Option.some_bind] at hg
    by_cases hit : ∃ b ∈ bluesW ws, ∃ buv ∈ uv_of b,
        (brg_rng_from_xy ((euv.1 : ℚ) : ℝ) ((euv.2 : ℚ) : ℝ)
          ((buv.1 : ℚ) : ℝ) ((buv.2 : ℚ) : ℝ)).2 ≤ ((MERGED_NM : ℚ) : ℝ)
    · rw [if_pos hit] at hg
      refine ⟨e, he, ⟨euv, by rw [heuv]; exact Option.mem_some_self _, hit⟩, ?_⟩
      unfold mergedLineFor
      exact (Option.some_injective _ hg).symm
    · rw [if_neg hit] at hg
      simp at hg

/-- Run `_check_merged` over a sequence of (tick, world snapshot) pairs,
threading the controller's cooldown state and recording the emitted lines
with their tick. -/
noncomputable def mergedRun (c : Ctrl) : List (ℤ × WState) → List (ℤ × String)
  | [] => []
  | (t, w) :: rest =>
    let r := check_merged { c with ws := w } t
    r.2.map (fun line => (t, line)) ++ mergedRun r.1 rest

theorem check_merged_cases (c : Ctrl) (t : ℤ) :
    (check_merged c t = (c, []) ∧
      ¬(mergedPairExists c.ws ∧ t - c.last_merged_tick ≥ c.merged_cooldown)) ∨
    (∃ e ∈ redsW c.ws, mergedHit c.ws e ∧
      check_merged c t = ({ c with last_merged_tick := t }, [mergedLineFor e]) ∧
      t - c.last_merged_tick ≥ c.merged_cooldown ∧ mergedPairExists c.ws) := by
  unfold check_merged
  split
  · rename_i hemp
    left
    refine ⟨rfl, ?_⟩
    rintro ⟨⟨e, he, euv, heuv, b, hb, rest⟩, _⟩
    rcases hemp with h | h
    · rw [List.isEmpty_iff] at h
      rw [h] at hb
      simp at hb
    · rw [List.isEmpty_iff] at h
      rw [h] at he
      simp at he
  · split
    · rename_i hnone
      left
      refine ⟨rfl, ?_⟩
      rintro ⟨hpair, _⟩
      exact (merged_line_of_eq_none_iff c.ws).1 hnone hpair
    · rename_i line hsome
      obtain ⟨e, he, hhit, hline⟩ := merged_line_of_eq_some c.ws line hsome
      split
      · rename_i hcool
        right
        exact ⟨e, he, hhit, by rw [hline], hcool, ⟨e, he, hhit⟩⟩
      · rename_i hcool
        left
        exact ⟨rfl, fun h => hcool h.2⟩

/-- C3 (amended): MERGED scans only (hostile, friendly) pairs — contacts of
unknown coalition are not scanned (see the counterexample).  When some red
contact has a friendly within 3 NM and the cooldown (10 discrete ticks) has
elapsed since the last MERGED, exactly one MERGED call naming that contact's
altitude phrase is emitted and the cooldown re-arms at the current tick;
while the cooldown is running nothing is emitted even if the condition
persists; over any run, consecutive MERGED emissions are at least one
cooldown apart. -/
theorem C3_merged_rate_limited (c : Ctrl) (tick : ℤ) (evs : List (ℤ × WState)) :
    ((check_merged c tick).2 ≠ [] ↔
      mergedPairExists c.ws ∧ tick - c.last_merged_tick ≥ c.merged_cooldown) ∧
    (∀ line ∈ (check_merged c tick).2,
      ∃ e ∈ redsW c.ws, mergedHit c.ws e ∧ line = mergedLineFor e) ∧
    (check_merged c tick).2.length ≤ 1 ∧
    ((check_merged c tick).2 ≠ [] → (check_merged c tick).1.last_merged_tick = tick) ∧
    ((check_merged c tick).2 = [] →
      (check_merged c tick).1.last_merged_tick = c.last_merged_tick) ∧
    List.Chain (fun a b => a + c.merged_cooldown ≤ b) c.last_merged_tick
      ((mergedRun c evs).map (fun p => p.1)) := by
  have hchain : ∀ (c' : Ctrl), List.Chain (fun a b => a + c'.merged_cooldown ≤ b)
      c'.last_merged_tick ((mergedRun c' evs).map (fun p => p.1)) := by
    clear c
    induction evs with
    | nil =>
      intro c
      exact List.Chain.nil
    | cons tw rest ih =>
      intro c
      rcases tw with ⟨t, w⟩
      rw [mergedRun]
      rcases check_merged_cases { c with ws := w } t with ⟨heq, _⟩ | ⟨e, _, _, heq, hcool, _⟩
      · rw [heq]
        simpa using ih { c with ws := w }
      · rw [heq]
        simp only [List.map_cons, List.map_nil, List.singleton_append, List.map_append]
        refine List.Chain.cons ?_ ?_
        · have : c.merged_cooldown ≤ t - c.last_merged_tick := hcool
          omega
        · exact ih { c with ws := w, last_merged_tick := t }
  rcases check_merged_cases c tick with ⟨heq, hneg⟩ | ⟨e, he, hhit, heq, hcool, hpair⟩ <;>
    rw [heq]
  · refine ⟨?_, ?_, ?_, ?_, ?_, hchain c⟩
    · simp only [ne_eq, not_true_eq_false, false_iff]
      exact fun h => hneg ⟨h.1, h.2⟩
    · intro line hl
      simp at hl
    · simp
    · intro h
      simp at h
    · intro _
      rfl
  · refine ⟨?_, ?_, ?_, ?_, ?_, hchain c⟩
    · simp only [ne_eq]
      constructor
      · intro _
        exact ⟨hpair, hcool⟩
      · intro _
        simp
    · intro line hl
      rw [List.mem_singleton] at hl
      exact ⟨e, he, hhit, hl⟩
    · simp
    · intro _
      rfl
    · intro h
      simp at h

/-- Friendly of the C3 counterexample, 1 NM east of the bullseye origin. -/
def c3Blue : Obj :=
  { object_id := "b1", otype := "Air+FixedWing", coalition := "Blue",
    T := some { U := some 1852, V := some 0 } }

/-- Unknown-coalition contact 1 NM east of the friendly. -/
def c3Unknown : Obj :=
  { object_id := "u1", otype := "Air+FixedWing", coalition := "",
    T := some { U := some 3704, V := some 0 } }

def c3World : WState := { objects := [("b1", c3Blue), ("u1", c3Unknown)] }

/-- The 1 NM separation used by the C3 scenarios is within `MERGED_NM`. -/
theorem c3_range_fact :
    (brg_rng_from_xy ((3704 : ℚ) : ℝ) ((0 : ℚ) : ℝ) ((1852 : ℚ) : ℝ) ((0 : ℚ) : ℝ)).2
      ≤ ((MERGED_NM : ℚ) : ℝ) := by
  unfold brg_rng_from_xy
  dsimp only
  rw [show ((1852 : ℚ) : ℝ) - ((3704 : ℚ) : ℝ) = -1852 by norm_num,
      show ((0 : ℚ) : ℝ) - ((0 : ℚ) : ℝ) = 0 by norm_num, hypotR_x_zero]
  rw [show |(-1852 : ℝ)| = 1852 by rw [abs_neg]; exact abs_of_nonneg (by norm_num)]
  norm_num [EARTH_M_PER_NM, MERGED_NM]

/-- C3 (counterexample to the claim as stated): an unknown-coalition contact
1 NM from a friendly satisfies the claimed (hostile-or-unknown, friendly)
proximity condition, yet `_check_merged` emits nothing, at any tick — the
scan covers hostile contacts only. -/
theorem C3_counterexample :
    coalition_of c3Unknown = "Unknown" ∧
    mergedHit c3World c3Unknown ∧
    c3Unknown ∉ redsW c3World ∧
    (check_merged { ws := c3World } 100).2 = [] := by
  refine ⟨rfl, ?_, by decide, ?_⟩
  · exact ⟨(3704, 0), rfl, c3Blue, by decide, (1852, 0), rfl, c3_range_fact⟩
  · rfl

/-- Hostile contact of the C3 witness, 1 NM east of the friendly. -/
def c3Red : Obj :=
  { object_id := "r1", otype := "Air+FixedWing", coalition := "Red",
    T := some { U := some 3704, V := some 0 } }

def c3WorldH : WState := { objects := [("b1", c3Blue), ("r1", c3Red)] }

/-- Concrete instance of the amended C3: with a hostile 1 NM from a friendly
and the cooldown long expired, the check does emit, and every emitted line is
the MERGED call for a qualifying hostile. -/
theorem C3_witness :
    (check_merged { ws := c3WorldH } 0).2 ≠ [] ∧
    ∀ line ∈ (check_merged { ws := c3WorldH } 0).2,
      ∃ e ∈ redsW c3WorldH, mergedHit c3WorldH e ∧ line = mergedLineFor e := by
  have h := C3_merged_rate_limited { ws := c3WorldH } 0 []
  refine ⟨h.1.2 ⟨?_, by decide⟩, h.2.1⟩
  exact ⟨c3Red, by decide, (3704, 0), rfl, c3Blue, by decide, (1852, 0), rfl, c3_range_fact⟩



/-! ## C5: missile-birth DEFEND fires at most once per identifier -/

theorem normalizeObj_id (o : Obj) : (normalizeObj o).object_id = o.object_id := by
  unfold normalizeObj
  split <;> rfl

theorem check_missile_birth_seen (c : Ctrl) (obj : Obj)
    (h : obj.object_id ∈ c.known_ids) : check_missile_birth c obj = (c, []) := by
  unfold check_missile_birth
  rw [if_pos h]

theorem check_missile_birth_state (c : Ctrl) (obj : Obj)
    (h : obj.object_id ∉ c.known_ids) :
    (check_missile_birth c obj).1
      = { c with known_ids := c.known_ids ++ [obj.object_id] } := by
  unfold check_missile_birth
  rw [if_neg h]
  dsimp only
  repeat' split
  all_goals rfl

theorem check_merged_known (c : Ctrl) (t : ℤ) :
    (check_merged c t).1.known_ids = c.known_ids := by
  rcases check_merged_cases c t with ⟨heq, _⟩ | ⟨_, _, _, heq, _, _⟩ <;> rw [heq]

theorem try_execute_push_known (c : Ctrl) :
    (try_execute_push c).1.known_ids = c.known_ids := by
  unfold try_execute_push
  dsimp only
  repeat' split
  all_goals rfl

theorem ctrlStep_known_mono (c : Ctrl) (ev : Event) (oid : String)
    (h : oid ∈ c.known_ids) : oid ∈ (ctrlStep c ev).1.known_ids := by
  cases ev with
  | timeEv ts =>
    unfold ctrlStep
    dsimp only
    split
    · rw [try_execute_push_known, check_merged_known]
      exact h
    · exact h
  | globalEv => exact h
  | removeEv oid' => exact h
  | updateEv o =>
    unfold ctrlStep
    dsimp only
    by_cases hmem : (normalizeObj o).object_id ∈ c.known_ids
    · rw [check_missile_birth_seen c _ hmem]
      exact h
    · rw [check_missile_birth_state c _ hmem]
      exact List.mem_append_left _ h

/-- DEFEND emissions one step contributes for identifier `oid`: 1 when the
event is an update of `oid` whose processing logged something. -/
noncomputable def stepDefendCount (c : Ctrl) (ev : Event) (oid : String) : ℕ :=
  match ev with
  | .updateEv o => if o.object_id = oid ∧ (ctrlStep c ev).2 ≠ [] then 1 else 0
  | _ => 0

/-- Number of DEFEND-emitting steps attributed to updates of `oid` in a run
of the ingest loop. -/
noncomputable def defendEmits : Ctrl → List Event → String → ℕ
  | _, [], _ => 0
  | c, ev :: rest, oid =>
    stepDefendCount c ev oid + defendEmits (ctrlStep c ev).1 rest oid

theorem defendEmits_zero_of_known (evs : List Event) (c : Ctrl) (oid : String)
    (h : oid ∈ c.known_ids) : defendEmits c evs oid = 0 := by
  induction evs generalizing c with
  | nil => rfl
  | cons ev rest ih =>
    rw [defendEmits]
    have hrest : defendEmits (ctrlStep c ev).1 rest oid = 0 :=
      ih _ (ctrlStep_known_mono c ev oid h)
    rw [hrest]
    simp only [Nat.add_zero]
    cases ev with
    | timeEv ts => rfl
    | globalEv => rfl
    | removeEv oid' => rfl
    | updateEv o =>
      by_cases hid : o.object_id = oid
      · have hmem : (normalizeObj o).object_id ∈ c.known_ids := by
          rw [normalizeObj_id, hid]
          exact h
        have hout : (ctrlStep c (.updateEv o)).2 = [] := by
          unfold ctrlStep
          dsimp only
          rw [check_missile_birth_seen c _ hmem]
        simp [stepDefendCount, hout]
      · simp [stepDefendCount, hid]

/-- C5: the missile-birth check on a newly-seen identifier that is
missile-like, non-friendly, positioned, and whose nearest friendly is within
30 NM emits exactly the one DEFEND call naming that friendly and the BRAA
from it to the weapon, marking the identifier as seen; and over every run of
the ingest loop, at most one DEFEND emission is ever attributed to any given
identifier. -/
theorem C5_defend_at_most_once (c : Ctrl) (obj : Obj) (mu mv : ℚ) (b : Obj) (r : ℝ)
    (hnew : obj.object_id ∉ c.known_ids) (hmis : isMissileLike obj = true)
    (hcoal : ¬(coalition_of obj = "Blue")) (huv : uv_of obj = some (mu, mv))
    (hnb : nearest_blue c.ws mu mv = (some b, r))
    (hr : r ≤ ((MISSILE_ALERT_MAX_RANGE_NM : ℚ) : ℝ)) :
    check_missile_birth c obj
      = ({ c with known_ids := c.known_ids ++ [obj.object_id] }, [defendLine b mu mv]) ∧
    ∀ (c₀ : Ctrl) (evs : List Event) (oid : String), defendEmits c₀ evs oid ≤ 1 := by
  constructor
  · unfold check_missile_birth
    rw [if_neg hnew]
    dsimp only
    rw [if_neg (by simp [hmis]), if_neg hcoal, huv]
    dsimp only
    rw [hnb]
    dsimp only
    rw [if_pos hr]
  · intro c₀ evs oid
    induction evs generalizing c₀ with
    | nil =>
      rw [show defendEmits c₀ [] oid = 0 from rfl]
      omega
    | cons ev rest ih =>
      rw [defendEmits]
      cases ev with
      | timeEv ts => simpa [stepDefendCount] using ih _
      | globalEv => simpa [stepDefendCount] using ih _
      | removeEv oid' => simpa [stepDefendCount] using ih _
      | updateEv o =>
        by_cases hid : o.object_id = oid
        · by_cases hout : (ctrlStep c₀ (.updateEv o)).2 ≠ []
          · have hknown : oid ∈ (ctrlStep c₀ (.updateEv o)).1.known_ids := by
              unfold ctrlStep
              dsimp only
              by_cases hmem : (normalizeObj o).object_id ∈ c₀.known_ids
              · rw [check_missile_birth_seen c₀ _ hmem]
                rw [normalizeObj_id, hid] at hmem
                exact hmem
              · rw [check_missile_birth_state c₀ _ hmem]
                refine List.mem_append_right _ ?_
                rw [normalizeObj_id, hid]
                exact List.mem_singleton_self _
            have hrest := defendEmits_zero_of_known rest _ oid hknown
            simp [stepDefendCount, hid, hout, hrest]
          · simp only [not_not] at hout
            simp only [stepDefendCount, hid, hout]
            simpa using ih _
        · simp only [stepDefendCount, hid, false_and, if_false, Nat.zero_add]
          exact ih _

/-- Friendly of the C5 witness. -/
def c5Blue : Obj :=
  { object_id := "b5", otype := "Air+FixedWing", coalition := "Blue",
    callsign := "Viper11", T := some { U := some 3704, V := some 1852 } }

/-- Hostile missile of the C5 witness, 1 NM from the friendly at birth. -/
def c5Missile : Obj :=
  { object_id := "m1", otype := "Weapon+Missile", name := "AIM-120",
    coalition := "Enemies", T := some { U := some 1852, V := some 1852 } }

def c5World : WState := { objects := [("b5", c5Blue)] }

theorem c5_range_fact :
    (brg_rng_from_xy ((1852 : ℚ) : ℝ) ((1852 : ℚ) : ℝ) ((3704 : ℚ) : ℝ) ((1852 : ℚ) : ℝ)).2
      = 1 := by
  unfold brg_rng_from_xy
  dsimp only
  rw [show ((3704 : ℚ) : ℝ) - ((1852 : ℚ) : ℝ) = 1852 by norm_num,
      show ((1852 : ℚ) : ℝ) - ((1852 : ℚ) : ℝ) = 0 by norm_num, hypotR_x_zero]
  rw [abs_of_nonneg (by norm_num : (0 : ℝ) ≤ 1852)]
  norm_num [EARTH_M_PER_NM]

theorem c5_nearest :
    nearest_blue c5World 1852 1852
      = (some c5Blue,
         (brg_rng_from_xy ((1852 : ℚ) : ℝ) ((1852 : ℚ) : ℝ) ((3704 : ℚ) : ℝ) ((1852 : ℚ) : ℝ)).2) := by
  unfold nearest_blue
  rw [show bluesW c5World = [c5Blue] from rfl]
  simp only [List.foldl_cons, List.foldl_nil]
  rw [show uv_of c5Blue = some (3704, 1852) from rfl]
  dsimp only
  rw [if_pos]
  rw [c5_range_fact]
  norm_num

/-- Concrete instance of C5: the newborn hostile missile triggers the one
DEFEND call for the nearby friendly, and two consecutive updates of the same
identifier still produce at most one DEFEND. -/
theorem C5_witness :
    check_missile_birth { ws := c5World } c5Missile
      = ({ ws := c5World, known_ids := ["m1"] }, [defendLine c5Blue 1852 1852]) ∧
    defendEmits { ws := c5World } [.updateEv c5Missile, .updateEv c5Missile] "m1" ≤ 1 := by
  have h := C5_defend_at_most_once { ws := c5World } c5Missile 1852 1852 c5Blue
    ((brg_rng_from_xy ((1852 : ℚ) : ℝ) ((1852 : ℚ) : ℝ) ((3704 : ℚ) : ℝ) ((1852 : ℚ) : ℝ)).2)
    (by simp) rfl (by decide) rfl c5_nearest
    (by rw [c5_range_fact]; norm_num [MISSILE_ALERT_MAX_RANGE_NM])
  exact ⟨h.1, h.2 _ _ _⟩

/-! ## C2: PUSH scheduling -/

theorem foldl_removeW_push_plan (ids : List String) (w : WState) :
    (ids.foldl removeW w).push_plan = w.push_plan := by
  induction ids generalizing w with
  | nil => rfl
  | cons j rest ih => exact (ih (removeW w j)).trans rfl

theorem timeAdvance_push_plan (c : Ctrl) (ts : Option ℚ) :
    (timeAdvance c ts).ws.push_plan = c.ws.push_plan := by
  unfold timeAdvance cull_stale
  exact foldl_removeW_push_plan _ _

theorem timeAdvance_fields (c : Ctrl) (ts : Option ℚ) :
    (timeAdvance c ts).hz = c.hz ∧ (timeAdvance c ts).last_emit_tick = c.last_emit_tick := by
  unfold timeAdvance cull_stale
  constructor
  · induction ((fun w => w) c.ws) with
    | mk => rfl
  · rfl

theorem check_merged_ws (c : Ctrl) (t : ℤ) : (check_merged c t).1.ws = c.ws := by
  rcases check_merged_cases c t with ⟨heq, _⟩ | ⟨_, _, _, heq, _, _⟩ <;> rw [heq]

theorem try_execute_push_noop (c : Ctrl) (h : c.ws.push_plan.active = true)
    (hlt : c.ws.time < c.ws.push_plan.exec_time.getD 0) :
    try_execute_push c = (c, []) := by
  unfold try_execute_push
  rw [if_neg (by simp [h]), if_pos hlt]

theorem try_execute_push_fire (c : Ctrl) (h : c.ws.push_plan.active = true)
    (hge : ¬(c.ws.time < c.ws.push_plan.exec_time.getD 0)) :
    try_execute_push c
      = ({ c with ws := { c.ws with push_plan := { c.ws.push_plan with active := false } } },
         pushBroadcast c.ws) := by
  unfold try_execute_push
  rw [if_neg (by simp [h]), if_neg hge]

theorem length_pushBroadcast (ws : WState) (h : ¬pushRecipients ws.cap_sites = []) :
    (pushBroadcast ws).length
      = ((pushRecipients ws.cap_sites).filter
          (fun oid => (getA ws.objects oid).isSome)).length := by
  unfold pushBroadcast
  rw [if_neg (by simpa using h)]
  generalize pushRecipients ws.cap_sites = l
  induction l with
  | nil => rfl
  | cons x rest ih =>
    cases hx : getA ws.objects x with
    | none => simp [List.filterMap_cons, List.filter_cons, hx, ih]
    | some o => simp [List.filterMap_cons, List.filter_cons, hx, ih]

/-- The controller state right after the clock/tick bookkeeping of a TIME
event, when the integer tick advanced. -/
noncomputable def tickState (c : Ctrl) (ts : Option ℚ) : Ctrl :=
  let c' := timeAdvance c ts
  { c' with last_emit_tick := truncQ (c'.ws.time * c'.hz) }

theorem ctrlStep_time_notick (c : Ctrl) (ts : Option ℚ)
    (heq : truncQ ((timeAdvance c ts).ws.time * c.hz) = c.last_emit_tick) :
    ctrlStep c (.timeEv ts) = (timeAdvance c ts, []) := by
  unfold ctrlStep
  dsimp only
  rw [if_neg (by simp only [not_not]; exact heq)]

theorem ctrlStep_time_tick (c : Ctrl) (ts : Option ℚ)
    (hne : ¬truncQ ((timeAdvance c ts).ws.time * c.hz) = c.last_emit_tick) :
    ctrlStep c (.timeEv ts)
      = ((try_execute_push (check_merged (tickState c ts)
            (truncQ ((timeAdvance c ts).ws.time * c.hz))).1).1,
         (check_merged (tickState c ts) (truncQ ((timeAdvance c ts).ws.time * c.hz))).2
           ++ (try_execute_push (check_merged (tickState c ts)
            (truncQ ((timeAdvance c ts).ws.time * c.hz))).1).2) := by
  unfold ctrlStep tickState
  dsimp only
  rw [if_pos (by exact hne)]
  rfl

/-- C2 (amended): with a plan armed `in 30s` at time `T` (offset parsing
shown), every TIME event whose simulated time stays below `T+30` leaves the
plan active and broadcasts nothing; a TIME event that does not advance the
integer tick counter runs no scheduler at all (this is what the
counterexample exhibits); on the first TIME event that advances the tick with
time `>= T+30` (including exactly `T+30`) the plan executes exactly once —
one broadcast line per entity then assigned to any CAP site and present in
the registry — and the active flag is cleared; and `push execute` on an
active plan sets the execution time to the current simulation time and runs
the same execution routine immediately. -/
theorem C2_push_scheduler (c : Ctrl) (ts : Option ℚ) (cmdC : Ctrl) :
    parse_time_offset "in 30s" = some 30 ∧
    (truncQ ((timeAdvance c ts).ws.time * c.hz) = c.last_emit_tick →
      ctrlStep c (.timeEv ts) = (timeAdvance c ts, [])) ∧
    (c.ws.push_plan.active = true →
      ¬truncQ ((timeAdvance c ts).ws.time * c.hz) = c.last_emit_tick →
      (timeAdvance c ts).ws.time < c.ws.push_plan.exec_time.getD 0 →
      (ctrlStep c (.timeEv ts)).1.ws.push_plan = c.ws.push_plan ∧
      (ctrlStep c (.timeEv ts)).2
        = (check_merged (tickState c ts) (truncQ ((timeAdvance c ts).ws.time * c.hz))).2) ∧
    (c.ws.push_plan.active = true →
      ¬truncQ ((timeAdvance c ts).ws.time * c.hz) = c.last_emit_tick →
      ¬((timeAdvance c ts).ws.time < c.ws.push_plan.exec_time.getD 0) →
      (ctrlStep c (.timeEv ts)).1.ws.push_plan.active = false ∧
      (ctrlStep c (.timeEv ts)).2
        = (check_merged (tickState c ts) (truncQ ((timeAdvance c ts).ws.time * c.hz))).2
            ++ pushBroadcast (timeAdvance c ts).ws) ∧
    (cmdC.ws.push_plan.active = true →
      (handleCmd cmdC .pushExecute).2.2 = "PUSH: executed." ∧
      (handleCmd cmdC .pushExecute).1.ws.push_plan.active = false ∧
      (handleCmd cmdC .pushExecute).2.1
        = pushBroadcast { cmdC.ws with
            push_plan := { cmdC.ws.push_plan with exec_time := some cmdC.ws.time } }) := by
  have hplanT := timeAdvance_push_plan c ts
  have htickws : (tickState c ts).ws = (timeAdvance c ts).ws := rfl
  refine ⟨by decide, ctrlStep_time_notick c ts, ?_, ?_, ?_⟩
  · intro hact hne hlt
    rw [ctrlStep_time_tick c ts hne]
    set t := truncQ ((timeAdvance c ts).ws.time * c.hz) with ht
    have hcm := check_merged_ws (tickState c ts) t
    have hact' : (check_merged (tickState c ts) t).1.ws.push_plan.active = true := by
      rw [hcm, htickws, hplanT]
      exact hact
    have hlt' : (check_merged (tickState c ts) t).1.ws.time
        < (check_merged (tickState c ts) t).1.ws.push_plan.exec_time.getD 0 := by
      rw [hcm, htickws, hplanT]
      exact hlt
    rw [try_execute_push_noop _ hact' hlt']
    constructor
    · rw [hcm, htickws, hplanT]
    · simp
  · intro hact hne hge
    rw [ctrlStep_time_tick c ts hne]
    set t := truncQ ((timeAdvance c ts).ws.time * c.hz) with ht
    have hcm := check_merged_ws (tickState c ts) t
    have hact' : (check_merged (tickState c ts) t).1.ws.push_plan.active = true := by
      rw [hcm, htickws, hplanT]
      exact hact
    have hge' : ¬((check_merged (tickState c ts) t).1.ws.time
        < (check_merged (tickState c ts) t).1.ws.push_plan.exec_time.getD 0) := by
      rw [hcm, htickws, hplanT]
      exact hge
    rw [try_execute_push_fire _ hact' hge']
    constructor
    · rfl
    · rw [hcm, htickws]
  · intro hact
    unfold handleCmd
    dsimp only
    rw [if_neg (by simp [hact])]
    have hact2 : ({ cmdC with ws := { cmdC.ws with
        push_plan := { cmdC.ws.push_plan with exec_time := some cmdC.ws.time } } } : Ctrl).ws.push_plan.active
        = true := hact
    have hge2 : ¬(({ cmdC with ws := { cmdC.ws with
        push_plan := { cmdC.ws.push_plan with exec_time := some cmdC.ws.time } } } : Ctrl).ws.time
        < ({ cmdC with ws := { cmdC.ws with
            push_plan := { cmdC.ws.push_plan with exec_time := some cmdC.ws.time } } } : Ctrl).ws.push_plan.exec_time.getD 0) := by
      show ¬(cmdC.ws.time < cmdC.ws.time)
      exact lt_irrefl _
    rw [try_execute_push_fire _ hact2 hge2]
    exact ⟨rfl, rfl, rfl⟩

/-- Bullseye object used by the C2 scenarios. -/
def c2Bull : Obj :=
  { object_id := "bull", otype := "Navaid+Static+Bullseye", coalition := "Allies",
    T := some { U := some 0, V := some 1852 } }

/-- Controller at simulation time 0.5 whose last emitted tick is 0. -/
def c2Ctrl0 : Ctrl :=
  { ws := { time := 1/2, objects := [("bull", c2Bull)],
            bullseye_by_coal := [("Allies", "bull")] },
    last_emit_tick := 0 }

/-- The controller after `push 90 20 in 30s` at time 0.5 (plan armed for
T+30 = 30.5). -/
noncomputable def c2Armed : Ctrl := (handleCmd c2Ctrl0 (.pushSet 90 20 "in 30s")).1

/-- `truncQ` on a non-negative rational in `[n, n+1)` times one. -/
theorem truncQ_mul_one_of (q : ℚ) (n : ℤ) (h0 : 0 ≤ q) (h1 : (n : ℚ) ≤ q)
    (h2 : q < n + 1) : truncQ (q * 1) = n := by
  rw [mul_one]
  unfold truncQ
  rw [if_pos h0, Int.floor_eq_iff]
  exact ⟨h1, h2⟩

/-- With an empty `last_seen` map the TIME update just installs the new
(non-zero) clock value. -/
theorem timeAdvance_time_eval (c : Ctrl) (x : ℚ) (hx : ¬x = 0)
    (hls : c.ws.last_seen = []) : (timeAdvance c (some x)).ws.time = x := by
  unfold timeAdvance cull_stale
  dsimp only
  rw [hls]
  simp only [List.filter_nil, List.map_nil, List.foldl_nil]
  rw [if_neg hx]

/-- `_check_merged` is a no-op whenever there are no friendly air contacts. -/
theorem check_merged_noblues (c : Ctrl) (t : ℤ) (h : bluesW c.ws = []) :
    check_merged c t = (c, []) := by
  unfold check_merged
  rw [if_pos (Or.inl (by rw [h]; rfl))]

/-- C2 (counterexample to the claim as stated): a plan armed `in 30s` at time
0.5 is due at 30.5, yet the TIME event at 30.7 — the first event at or after
the due time — executes nothing and leaves the plan active, because the
scheduler only runs when `int(time*hz)` differs from the last emitted tick
and the earlier event at 30.3 already consumed tick 30. -/
theorem C2_counterexample :
    parse_time_offset "in 30s" = some 30 ∧
    c2Armed.ws.time = 1/2 ∧
    c2Armed.ws.push_plan.active = true ∧
    c2Armed.ws.push_plan.exec_time = some (1/2 + 30) ∧
    (ctrlStep c2Armed (.timeEv (some (303/10)))).2 = [] ∧
    ((1 : ℚ)/2 + 30 ≤ 307/10) ∧
    (ctrlStep (ctrlStep c2Armed (.timeEv (some (303/10)))).1
        (.timeEv (some (307/10)))).2 = [] ∧
    (ctrlStep (ctrlStep c2Armed (.timeEv (some (303/10)))).1
        (.timeEv (some (307/10)))).1.ws.push_plan.active = true := by
  have htr1 : truncQ ((timeAdvance c2Armed (some (303/10))).ws.time * c2Armed.hz) = 30 := by
    rw [timeAdvance_time_eval c2Armed (303/10) (by norm_num) rfl,
        show c2Armed.hz = (1 : ℚ) from rfl]
    exact truncQ_mul_one_of _ 30 (by norm_num) (by norm_num) (by norm_num)
  have hne1 : ¬truncQ ((timeAdvance c2Armed (some (303/10))).ws.time * c2Armed.hz)
      = c2Armed.last_emit_tick := by
    rw [htr1, show c2Armed.last_emit_tick = (0 : ℤ) from rfl]
    decide
  have hcm : check_merged (tickState c2Armed (some (303/10)))
      (truncQ ((timeAdvance c2Armed (some (303/10))).ws.time * c2Armed.hz))
      = (tickState c2Armed (some (303/10)), []) :=
    check_merged_noblues _ _ rfl
  have htp : try_execute_push (tickState c2Armed (some (303/10)))
      = (tickState c2Armed (some (303/10)), []) := by
    refine try_execute_push_noop _ rfl ?_
    rw [show (tickState c2Armed (some (303/10))).ws.time
          = (timeAdvance c2Armed (some (303/10))).ws.time from rfl,
        timeAdvance_time_eval c2Armed (303/10) (by norm_num) rfl,
        show (tickState c2Armed (some (303/10))).ws.push_plan.exec_time
          = some ((1 : ℚ)/2 + 30) from rfl]
    rw [Option.getD_some]
    norm_num
  have hstep1 : ctrlStep c2Armed (.timeEv (some (303/10)))
      = (tickState c2Armed (some (303/10)), []) := by
    rw [ctrlStep_time_tick c2Armed _ hne1, hcm]
    dsimp only
    rw [htp]
    rfl
  have hle1 : (tickState c2Armed (some (303/10))).last_emit_tick = 30 := htr1
  have htr2 : truncQ ((timeAdvance (tickState c2Armed (some (303/10))) (some (307/10))).ws.time
      * (tickState c2Armed (some (303/10))).hz)
      = (tickState c2Armed (some (303/10))).last_emit_tick := by
    rw [timeAdvance_time_eval _ (307/10) (by norm_num) rfl,
        show (tickState c2Armed (some (303/10))).hz = (1 : ℚ) from rfl, hle1]
    exact truncQ_mul_one_of _ 30 (by norm_num) (by norm_num) (by norm_num)
  have hstep2 : ctrlStep (tickState c2Armed (some (303/10))) (.timeEv (some (307/10)))
      = (timeAdvance (tickState c2Armed (some (303/10))) (some (307/10)), []) :=
    ctrlStep_time_notick _ _ htr2
  refine ⟨by decide, rfl, rfl, rfl, ?_, by norm_num, ?_, ?_⟩
  · rw [hstep1]
  · rw [hstep1]
    dsimp only
    rw [hstep2]
  · rw [hstep1]
    dsimp only
    rw [hstep2]
    dsimp only
    rw [timeAdvance_push_plan]
    rfl

/-- Concrete instance of the amended C2 on the armed controller: an event
that does not advance the tick is a pure time update; one below the due time
preserves the plan and emits only the MERGED scan output; one at time 31
(past due, tick advanced) clears the active flag; and `push execute` replies
`PUSH: executed.` and clears the flag. -/
theorem C2_witness :
    ctrlStep c2Armed (.timeEv (some (1/2))) = (timeAdvance c2Armed (some (1/2)), []) ∧
    ((ctrlStep c2Armed (.timeEv (some 15))).1.ws.push_plan = c2Armed.ws.push_plan ∧
     (ctrlStep c2Armed (.timeEv (some 15))).2
       = (check_merged (tickState c2Armed (some 15))
           (truncQ ((timeAdvance c2Armed (some 15)).ws.time * c2Armed.hz))).2) ∧
    (ctrlStep c2Armed (.timeEv (some 31))).1.ws.push_plan.active = false ∧
    (handleCmd c2Armed .pushExecute).2.2 = "PUSH: executed." ∧
    (handleCmd c2Armed .pushExecute).1.ws.push_plan.active = false := by
  have heq0 : truncQ ((timeAdvance c2Armed (some (1/2))).ws.time * c2Armed.hz)
      = c2Armed.last_emit_tick := by
    rw [timeAdvance_time_eval c2Armed (1/2) (by norm_num) rfl,
        show c2Armed.hz = (1 : ℚ) from rfl,
        show c2Armed.last_emit_tick = (0 : ℤ) from rfl]
    exact truncQ_mul_one_of _ 0 (by norm_num) (by norm_num) (by norm_num)
  have hne15 : ¬truncQ ((timeAdvance c2Armed (some 15)).ws.time * c2Armed.hz)
      = c2Armed.last_emit_tick := by
    rw [timeAdvance_time_eval c2Armed 15 (by norm_num) rfl,
        show c2Armed.hz = (1 : ℚ) from rfl,
        show c2Armed.last_emit_tick = (0 : ℤ) from rfl,
        truncQ_mul_one_of _ 15 (by norm_num) (by norm_num) (by norm_num)]
    decide
  have hlt15 : (timeAdvance c2Armed (some 15)).ws.time
      < c2Armed.ws.push_plan.exec_time.getD 0 := by
    rw [timeAdvance_time_eval c2Armed 15 (by norm_num) rfl,
        show c2Armed.ws.push_plan.exec_time = some ((1 : ℚ)/2 + 30) from rfl,
        Option.getD_some]
    norm_num
  have hne31 : ¬truncQ ((timeAdvance c2Armed (some 31)).ws.time * c2Armed.hz)
      = c2Armed.last_emit_tick := by
    rw [timeAdvance_time_eval c2Armed 31 (by norm_num) rfl,
        show c2Armed.hz = (1 : ℚ) from rfl,
        show c2Armed.last_emit_tick = (0 : ℤ) from rfl,
        truncQ_mul_one_of _ 31 (by norm_num) (by norm_num) (by norm_num)]
    decide
  have hge31 : ¬((timeAdvance c2Armed (some 31)).ws.time
      < c2Armed.ws.push_plan.exec_time.getD 0) := by
    rw [timeAdvance_time_eval c2Armed 31 (by norm_num) rfl,
        show c2Armed.ws.push_plan.exec_time = some ((1 : ℚ)/2 + 30) from rfl,
        Option.getD_some]
    norm_num
  refine ⟨(C2_push_scheduler c2Armed (some (1/2)) c2Armed).2.1 heq0,
    (C2_push_scheduler c2Armed (some 15) c2Armed).2.2.1 rfl hne15 hlt15,
    ((C2_push_scheduler c2Armed (some 31) c2Armed).2.2.2.1 rfl hne31 hge31).1,
    ((C2_push_scheduler c2Armed (some 31) c2Armed).2.2.2.2 rfl).1,
    ((C2_push_scheduler c2Armed (some 31) c2Armed).2.2.2.2 rfl).2.1⟩

/-- A hostile air contact used by the C7 scenarios. -/
def c7Red : Obj :=
  { object_id := "r7", otype := "Air+FixedWing", coalition := "Red",
    T := some { U := some 37040, V := some 0 } }

/-- World with one hostile, no bullseye and no friendlies. -/
def c7World : WState := { objects := [("r7", c7Red)] }

def c7Ctrl : Ctrl := { ws := c7World }

/-- C7 (counterexample to the claim as stated): with contacts of interest but
no bullseye, `picture` refuses with `PICTURE: no bullseye available yet.` — a
missing-data reply that is not a literal `UNABLE: <reason>` string (it does
not even contain `UNABLE`). -/
theorem C7_counterexample :
    (handleCmd c7Ctrl (.picture none)).2.2 = "PICTURE: no bullseye available yet." ∧
    strContains "PICTURE: no bullseye available yet." "UNABLE" = false ∧
    startsWithStr "PICTURE: no bullseye available yet." "UNABLE:" = false := by
  exact ⟨rfl, by decide, by decide⟩

/-- C7 (amended): the dispatcher never fails on missing data — each handler
returns a fixed diagnostic reply — but the refusal strings are heterogeneous:
the no-friendly refusals are `<caller>, UNABLE: <reason>`, the vector/snap
target failures are bare `UNABLE: <reason>`, while the bullseye-less
`picture`/`declare bulls`/`alpha` replies and the CAP failures use
command-specific prefixes (`PICTURE:`/`DECLARE:`/`ALPHA CHECK:`/`CAP:`) and
are not literal `UNABLE: <reason>` strings. -/
theorem C7_missing_data_refusals (c : Ctrl) (x fcs nm target : String)
    (cs : Option String) (brg rng : ℤ) (rad : ℚ) (alt : String)
    (hbull : (find_bull c.ws).bind uv_of = none)
    (hblues : bluesW c.ws = [])
    (hint : (redsW c.ws ++ unksW c.ws).isEmpty = false) :
    (handleCmd c (.picture none)).2.2 = "PICTURE: no bullseye available yet." ∧
    (handleCmd c (.bogeydope none)).2.2 = "Fighter, UNABLE: no friendly reference available." ∧
    (handleCmd c (.declareCmd none)).2.2 = "Fighter, UNABLE: declare (no friendly reference)." ∧
    (handleCmd c (.snap none)).2.2 = "Fighter, UNABLE: snap (no friendly reference)." ∧
    (handleCmd c (.vector none target)).2.2 = "Fighter, UNABLE: vector (no friendly reference)." ∧
    (handleCmd c (.declareBulls cs brg rng)).2.2 = "DECLARE: no bullseye available." ∧
    (handleCmd c (.alpha cs (some x))).2.2 = "ALPHA CHECK: no bullseye available." ∧
    (handleCmd c (.capAddBulls nm brg rng rad alt)).2.2 = "CAP: UNABLE — no bullseye." ∧
    (handleCmd c (.capAssign fcs nm)).2.2 = "CAP: UNABLE — fighter not found." := by
  have hfrn : frOf ([] : List Obj) none = none := rfl
  have hfc : find_callsign ([] : List Obj) fcs = none := by
    unfold find_callsign
    split <;> rfl
  refine ⟨?_, ?_, ?_, ?_, ?_, ?_, ?_, ?_, ?_⟩
  · unfold handleCmd
    dsimp only
    rw [hbull, hint]
    rfl
  · unfold handleCmd
    dsimp only
    rw [hblues, hfrn]
    rfl
  · unfold handleCmd
    dsimp only
    rw [hblues, hfrn]
    rfl
  · unfold handleCmd
    dsimp only
    rw [hblues, hfrn]
    rfl
  · unfold handleCmd
    dsimp only
    rw [hblues, hfrn]
    rfl
  · unfold handleCmd
    dsimp only
    rw [hbull]
  · unfold handleCmd
    dsimp only
    rw [hbull]
  · unfold handleCmd
    dsimp only
    rw [hbull]
  · unfold handleCmd
    dsimp only
    rw [hblues, hfc]

/-- Concrete instance of the amended C7 in the hostile-only world: the
bullseye-less `picture` refusal and the unknown-fighter CAP refusal, with
their exact reply strings. -/
theorem C7_witness :
    (handleCmd c7Ctrl (.picture none)).2.2 = "PICTURE: no bullseye available yet." ∧
    (handleCmd c7Ctrl (.capAssign "f1" "station")).2.2 = "CAP: UNABLE — fighter not found." :=
  ⟨(C7_missing_data_refusals c7Ctrl "x" "f1" "station" "tgt" none 90 20 10 ""
      rfl rfl rfl).1,
   (C7_missing_data_refusals c7Ctrl "x" "f1" "station" "tgt" none 90 20 10 ""
      rfl rfl rfl).2.2.2.2.2.2.2.2⟩

set_option maxRecDepth 2000

/-- Altitude in meters whose foot conversion is exactly 25,000 ft. -/
def c1AltM : ℚ := 25000 / M_TO_FT

/-- Bullseye one NM north of the planar origin (a bullseye at the exact
origin is rejected by `get_xy_mode`, see the counterexample). -/
def c1Bull : Obj :=
  { object_id := "bull", otype := "Navaid+Static+Bullseye", coalition := "Allies",
    T := some { U := some 0, V := some 1852 } }

/-- Hostile contact 20 NM due east of the bullseye, 25,000 ft, heading 270
(straight at the bullseye). -/
def c1Red : Obj :=
  { object_id := "r1", otype := "Air+FixedWing", coalition := "Red",
    T := some { U := some 37040, V := some 1852, Altitude := some c1AltM,
                Heading := some 270 } }

def c1World : WState :=
  { objects := [("bull", c1Bull), ("r1", c1Red)],
    bullseye_by_coal := [("Allies", "bull")] }

def c1Ctrl : Ctrl := { ws := c1World }

def c1CtrlWF : Ctrl := { ws := c1World, weapons_free := true }

/-- The single `items` entry `group_contacts` builds for `c1Red`. -/
def c1Item : Item :=
  { o := c1Red, u := 37040, v := 1852, alt_ft := some (c1AltM * M_TO_FT) }

/-- The summary `summarize_groups` produces for the single group. -/
def c1Summary (wf : Bool) : GSummary :=
  { size := 1, brg := 90, rng_nm := ((20 : ℤ) : ℝ), lo_ang := some 25,
    hi_ang := some 25, aspect := "COLD", ident := identWord wf "Red",
    centroid_uv := (37040, 1852) }

theorem c1_atan2 : atan2 37040 0 = Real.pi / 2 := by
  unfold atan2
  rw [show (⟨0, 37040⟩ : ℂ) = ((37040 : ℝ) : ℂ) * Complex.I from by
        apply Complex.ext <;> simp]
  rw [Complex.arg_real_mul _ (by norm_num : (0 : ℝ) < 37040), Complex.arg_I]

theorem c1_fmod450 : fmodR 450 360 = 90 := by
  unfold fmodR
  rw [show ⌊(450 : ℝ)/360⌋ = 1 from by rw [Int.floor_eq_iff] <;> norm_num]
  norm_num

/-- The bearing/range pair from the bullseye to the contact: exactly 090/20. -/
theorem c1_brg_cast :
    brg_rng_from_xy ((0 : ℚ) : ℝ) ((1852 : ℚ) : ℝ) ((37040 : ℚ) : ℝ) ((1852 : ℚ) : ℝ)
      = (90, ((20 : ℤ) : ℝ)) := by
  rw [show ((0 : ℚ) : ℝ) = 0 by norm_num, show ((1852 : ℚ) : ℝ) = 1852 by norm_num,
      show ((37040 : ℚ) : ℝ) = 37040 by norm_num]
  unfold brg_rng_from_xy bearing_deg
  dsimp only
  rw [show (37040 : ℝ) - 0 = 37040 by norm_num, show (1852 : ℝ) - 1852 = 0 by norm_num]
  rw [c1_atan2]
  rw [show degreesR (Real.pi / 2) = 90 from by unfold degreesR; field_simp; ring]
  rw [show (90 : ℝ) + 360 = 450 by norm_num, c1_fmod450]
  rw [show (90 : ℝ) = ((90 : ℤ) : ℝ) by norm_num, pyround_intCast]
  rw [hypotR_x_zero, abs_of_nonneg (by norm_num : (0 : ℝ) ≤ 37040)]
  simp only [Prod.mk.injEq]
  constructor
  · decide
  · rw [show ((EARTH_M_PER_NM : ℚ) : ℝ) = 1852 by norm_num [EARTH_M_PER_NM]]
    norm_num

/-- A contact flying straight at the reference point (heading opposite the
bearing, angular difference 180) is called COLD by `aspect_word`. -/
theorem c1_aspect :
    aspect_word (some ((270 : ℚ) : ℝ)) (some ((90 : ℤ) : ℝ)) = "COLD" := by
  rw [show ((270 : ℚ) : ℝ) = 270 by norm_num, show (((90 : ℤ)) : ℝ) = 90 by norm_num]
  unfold aspect_word
  dsimp only
  rw [show (270 : ℝ) - 90 + 540 = 720 by norm_num]
  rw [show fmodR 720 360 = 0 from by
        unfold fmodR
        rw [show ⌊(720 : ℝ)/360⌋ = 2 from by rw [Int.floor_eq_iff] <;> norm_num]
        norm_num]
  rw [show |(0 : ℝ) - 180| = 180 from by rw [zero_sub, abs_neg]; norm_num]
  rw [if_neg (by norm_num [BEAM_MIN, BEAM_MAX]), if_neg (by norm_num [HOT_MAX]),
      if_pos (by norm_num [COLD_MIN])]

theorem normHead270 : normHeadQ 270 = 270 := by
  have h1 : fmodQ 270 360 = 270 := by
    unfold fmodQ
    rw [show ⌊(270 : ℚ)/360⌋ = 0 from by rw [Int.floor_eq_iff] <;> norm_num]
    norm_num
  unfold normHeadQ
  rw [h1, show (270 : ℚ) + 360 = 630 by norm_num]
  unfold fmodQ
  rw [show ⌊(630 : ℚ)/360⌋ = 1 from by rw [Int.floor_eq_iff] <;> norm_num]
  norm_num

theorem c1_summarize (wf : Bool) :
    summarize_one (0, 1852) wf [c1Item] = c1Summary wf := by
  unfold summarize_one c1Summary
  dsimp only
  rw [show ((List.map (fun it => it.u) [c1Item]).sum / ((List.length [c1Item] : ℕ) : ℚ) : ℚ)
        = (37040 : ℚ) from by norm_num [c1Item],
      show ((List.map (fun it => it.v) [c1Item]).sum / ((List.length [c1Item] : ℕ) : ℚ) : ℚ)
        = (1852 : ℚ) from by norm_num [c1Item]]
  rw [c1_brg_cast]
  rw [show (if (List.filterMap (fun it => (it.o.T.bind (fun t => t.Heading)).map normHeadQ) [c1Item]) = ([] : List ℚ)
          then (none : Option ℚ)
          else some ((List.filterMap (fun it => (it.o.T.bind (fun t => t.Heading)).map normHeadQ) [c1Item]).sum
            / ((List.filterMap (fun it => (it.o.T.bind (fun t => t.Heading)).map normHeadQ) [c1Item]).length : ℚ)))
        = some (270 : ℚ) from by norm_num [c1Item, c1Red, List.filterMap_cons, normHead270]]
  simp only [Option.map_some']
  rw [c1_aspect]
  rw [show (argmaxCount (List.foldl (fun m it => bump m (identWord wf (coalition_of it.o)))
        ([] : List (String × ℕ)) [c1Item])).getD "Bogey" = identWord wf "Red" from rfl]
  simp only [GSummary.mk.injEq, List.length_cons, List.length_nil, true_and, and_true]
  refine ⟨?_, ?_⟩
  · simp only [List.filterMap_cons, List.filterMap_nil, c1Item, List.foldl_cons, List.foldl_nil]
    show some (pyroundQ (c1AltM * M_TO_FT / 1000)) = some 25
    rw [show pyroundQ (c1AltM * M_TO_FT / 1000) = (25 : ℤ) from by with_unfolding_all decide]
  · simp only [List.filterMap_cons, List.filterMap_nil, c1Item, List.foldl_cons, List.foldl_nil]
    show some (pyroundQ (c1AltM * M_TO_FT / 1000)) = some 25
    rw [show pyroundQ (c1AltM * M_TO_FT / 1000) = (25 : ℤ) from by with_unfolding_all decide]

/-- `format_picture` on one group of interest. -/
theorem format_picture_one (g : GSummary)
    (h : decide (g.ident = "Bogey" ∨ g.ident = "Bandit" ∨ g.ident = "Hostile") = true) :
    format_picture [g] = trimStr ("PICTURE: single group. " ++ groupLine "Nearest group" g) := by
  have hfl : List.filter (fun s => decide (s.ident = "Bogey" ∨ s.ident = "Bandit" ∨ s.ident = "Hostile")) [g] = [g] := by
    rw [List.filter_cons, if_pos (by exact h), List.filter_nil]
  unfold format_picture
  dsimp only
  rw [hfl]
  rfl

theorem c1_groupLine_bandit :
    groupLine "Nearest group" (c1Summary false)
      = "Nearest group BULLS 090 for 20, single, bandit, angels 25, COLD. " := by
  unfold groupLine
  dsimp only
  rw [show (c1Summary false).rng_nm = ((20 : ℤ) : ℝ) from rfl, pyround_intCast]
  with_unfolding_all rfl

theorem c1_groupLine_hostile :
    groupLine "Nearest group" (c1Summary true)
      = "Nearest group BULLS 090 for 20, single, hostile, angels 25, COLD. " := by
  unfold groupLine
  dsimp only
  rw [show (c1Summary true).rng_nm = ((20 : ℤ) : ℝ) from rfl, pyround_intCast]
  with_unfolding_all rfl

theorem c1_sumgroups (wf : Bool) :
    summarize_groups [[c1Item]] (0, 1852) wf = [c1Summary wf] := by
  unfold summarize_groups
  simp only [List.map_cons, List.map_nil]
  rw [List.mergeSort_singleton, c1_summarize]

/-- C1 (amended): in the repaired scenario — bullseye one NM north of the
origin, one hostile contact at bearing 090 range 20 NM from it, 25,000 ft,
heading 270 (straight at the bullseye) — `picture` reports a single group
whose line reads `angels 25` and `COLD` (not the claimed `HOT`: the code
calls the head-on geometry COLD), with the identity word `bandit`, or
`hostile` when weapons-free. -/
theorem C1_picture_line :
    (handleCmd c1Ctrl (.picture none)).2.2
      = "PICTURE: single group. Nearest group BULLS 090 for 20, single, bandit, angels 25, COLD." ∧
    (handleCmd c1CtrlWF (.picture none)).2.2
      = "PICTURE: single group. Nearest group BULLS 090 for 20, single, hostile, angels 25, COLD." := by
  have h1 : (handleCmd c1Ctrl (.picture none)).2.2
      = format_picture (summarize_groups
          (group_contacts [c1Red] c1Ctrl.grp_range_nm c1Ctrl.grp_alt_ft)
          (0, 1852) c1Ctrl.weapons_free) := by
    unfold handleCmd
    dsimp only
    rw [show (find_bull c1Ctrl.ws).bind uv_of = some ((0 : ℚ), (1852 : ℚ)) from rfl]
    dsimp only
    rw [show redsW c1Ctrl.ws ++ unksW c1Ctrl.ws = [c1Red] from rfl]
    rw [if_pos (by decide)]
  have h1' : (handleCmd c1CtrlWF (.picture none)).2.2
      = format_picture (summarize_groups
          (group_contacts [c1Red] c1CtrlWF.grp_range_nm c1CtrlWF.grp_alt_ft)
          (0, 1852) c1CtrlWF.weapons_free) := by
    unfold handleCmd
    dsimp only
    rw [show (find_bull c1CtrlWF.ws).bind uv_of = some ((0 : ℚ), (1852 : ℚ)) from rfl]
    dsimp only
    rw [show redsW c1CtrlWF.ws ++ unksW c1CtrlWF.ws = [c1Red] from rfl]
    rw [if_pos (by decide)]
  constructor
  · rw [h1, show c1Ctrl.grp_range_nm = (5 : ℚ) from rfl,
        show c1Ctrl.grp_alt_ft = (2000 : ℚ) from rfl,
        show c1Ctrl.weapons_free = false from rfl]
    rw [show group_contacts [c1Red] 5 2000 = [[c1Item]] from by with_unfolding_all rfl]
    rw [c1_sumgroups false]
    rw [format_picture_one (c1Summary false) (by with_unfolding_all rfl)]
    rw [c1_groupLine_bandit]
    with_unfolding_all rfl
  · rw [h1', show c1CtrlWF.grp_range_nm = (5 : ℚ) from rfl,
        show c1CtrlWF.grp_alt_ft = (2000 : ℚ) from rfl,
        show c1CtrlWF.weapons_free = true from rfl]
    rw [show group_contacts [c1Red] 5 2000 = [[c1Item]] from by with_unfolding_all rfl]
    rw [c1_sumgroups true]
    rw [format_picture_one (c1Summary true) (by with_unfolding_all rfl)]
    rw [c1_groupLine_hostile]
    with_unfolding_all rfl

/-- Bullseye at the exact planar origin, as the claim posits. -/
def c1OBull : Obj :=
  { object_id := "bull0", otype := "Navaid+Static+Bullseye", coalition := "Allies",
    T := some { U := some 0, V := some 0 } }

def c1OWorld : WState :=
  { objects := [("bull0", c1OBull), ("r1", c1Red)],
    bullseye_by_coal := [("Allies", "bull0")] }

def c1OCtrl : Ctrl := { ws := c1OWorld }

/-- C1 (counterexample to the claim as stated): the claimed scenario cannot
even produce a group line — a bullseye at the exact planar origin has
`U = V = 0`, which `get_xy_mode` treats as position-less, so `picture`
refuses with `no bullseye available yet` — and in the repaired geometry the
head-on aspect (heading 270 against bearing 090, angular difference 180) is
rendered `COLD`, not the claimed `HOT`. -/
theorem C1_counterexample :
    uv_of c1OBull = none ∧
    find_bull c1OWorld = some c1OBull ∧
    (handleCmd c1OCtrl (.picture none)).2.2 = "PICTURE: no bullseye available yet." ∧
    aspect_word (some ((270 : ℚ) : ℝ)) (some ((90 : ℤ) : ℝ)) = "COLD" ∧
    ¬("COLD" = "HOT") := by
  refine ⟨rfl, rfl, rfl, c1_aspect, by decide⟩

end Awacs
